import Mathlib

/-!
# eventing-prometheus: the convergence engine of the PrometheusRuleSource reconciler

A shallow embedding of `pkg/reconciler/prometheusrulesource/prometheusrulesource.go` and of
the parts of `pkg/apis/sources/v1alpha1` it uses.

* Go values of type `error` are `Option String`: `none` is the nil error, `some msg` an
  error whose `Error()` text is `msg`.
* Go `map[string]string` values are `Option (List (String × String))`: `none` is the nil map,
  the list holds the entries (each key once).
* Remote collaborators (listers, typed clients, the sink resolver) are the fields of
  `Reconciler`, functions over an explicit cluster state; every call the reconciler issues
  is appended to a trace, every recorded event to an event log.
* Library functions the reconciler calls (`kmeta.ChildName`, `fmt.Sprintf`,
  `equality.Semantic.DeepDerivative`, the condition manager of `knative.dev/pkg/apis`) are
  not part of the repository sources; they are modelled after the libraries, in namespaces
  named after their Go packages.
-/

/-! ## Go maps -/

namespace gomap

/-- Reading `m[k]` from the entries of a map. -/
def lookup : List (String × String) → String → Option String
  | [], _ => none
  | e :: rest, k => if e.1 = k then some e.2 else lookup rest k

/-- The assignment `m[k] = v` on the entries of a non-nil map. -/
def insert : List (String × String) → String → String → List (String × String)
  | [], k, v => [(k, v)]
  | e :: rest, k, v => if e.1 = k then (k, v) :: rest else e :: insert rest k v

end gomap

/-! ## crypto/md5 and encoding/hex -/

namespace md5

/-- Per-round left-rotation amounts. -/
def shifts : List Nat :=
  [7, 12, 17, 22, 7, 12, 17, 22, 7, 12, 17, 22, 7, 12, 17, 22,
   5, 9, 14, 20, 5, 9, 14, 20, 5, 9, 14, 20, 5, 9, 14, 20,
   4, 11, 16, 23, 4, 11, 16, 23, 4, 11, 16, 23, 4, 11, 16, 23,
   6, 10, 15, 21, 6, 10, 15, 21, 6, 10, 15, 21, 6, 10, 15, 21]

/-- The sine-derived round constants. -/
def K : List Nat :=
  [0xd76aa478, 0xe8c7b756, 0x242070db, 0xc1bdceee, 0xf57c0faf, 0x4787c62a, 0xa8304613, 0xfd469501,
   0x698098d8, 0x8b44f7af, 0xffff5bb1, 0x895cd7be, 0x6b901122, 0xfd987193, 0xa679438e, 0x49b40821,
   0xf61e2562, 0xc040b340, 0x265e5a51, 0xe9b6c7aa, 0xd62f105d, 0x02441453, 0xd8a1e681, 0xe7d3fbc8,
   0x21e1cde6, 0xc33707d6, 0xf4d50d87, 0x455a14ed, 0xa9e3e905, 0xfcefa3f8, 0x676f02d9, 0x8d2a4c8a,
   0xfffa3942, 0x8771f681, 0x6d9d6122, 0xfde5380c, 0xa4beea44, 0x4bdecfa9, 0xf6bb4b60, 0xbebfbc70,
   0x289b7ec6, 0xeaa127fa, 0xd4ef3085, 0x04881d05, 0xd9d4d039, 0xe6db99e5, 0x1fa27cf8, 0xc4ac5665,
   0xf4292244, 0x432aff97, 0xab9423a7, 0xfc93a039, 0x655b59c3, 0x8f0ccc92, 0xffeff47d, 0x85845dd1,
   0x6fa87e4f, 0xfe2ce6e0, 0xa3014314, 0x4e0811a1, 0xf7537e82, 0xbd3af235, 0x2ad7d2bb, 0xeb86d391]

/-- Two to the power 32: words are naturals reduced modulo this. -/
def W : Nat := 4294967296

/-- Rotate a 32-bit word left by `s` bits. -/
def rotl (x s : Nat) : Nat := ((x <<< s) % W) ||| (x >>> (32 - s))

/-- Bitwise complement of a 32-bit word. -/
def not32 (x : Nat) : Nat := (W - 1) ^^^ x

/-- The message followed by the bit `1`, zero bytes up to 56 modulo 64, and the bit length
as eight little-endian bytes. -/
def pad (msg : List Nat) : List Nat :=
  let withOne := msg ++ [128]
  let zeros := (64 + 56 - withOne.length % 64) % 64
  let bits := (msg.length * 8) % (W * W)
  withOne ++ List.replicate zeros 0 ++ (List.range 8).map (fun i => (bits >>> (8 * i)) % 256)

/-- The sixteen little-endian words of a 64-byte block. -/
def words (block : List Nat) : List Nat :=
  (List.range 16).map (fun j =>
    block.getD (4 * j) 0 + 256 * block.getD (4 * j + 1) 0
      + 65536 * block.getD (4 * j + 2) 0 + 16777216 * block.getD (4 * j + 3) 0)

/-- One of the 64 operations of the compression function. -/
def step (M : List Nat) (st : Nat × Nat × Nat × Nat) (i : Nat) : Nat × Nat × Nat × Nat :=
  let (A, B, C, D) := st
  let (F, g) :=
    if i < 16 then ((B &&& C) ||| (not32 B &&& D), i)
    else if i < 32 then ((D &&& B) ||| (not32 D &&& C), (5 * i + 1) % 16)
    else if i < 48 then (B ^^^ C ^^^ D, (3 * i + 5) % 16)
    else (C ^^^ (B ||| not32 D), (7 * i) % 16)
  let F1 := (F + A + K.getD i 0 + M.getD g 0) % W
  (D, (B + rotl F1 (shifts.getD i 0)) % W, B, C)

/-- Folding the blocks of a padded message into the four-word state. -/
def blocks : Nat → List Nat → Nat × Nat × Nat × Nat → Nat × Nat × Nat × Nat
  | 0, _, st => st
  | n + 1, bytes, st =>
    let (a, b, c, d) := (List.range 64).foldl (step (words (bytes.take 64))) st
    blocks n (bytes.drop 64) ((st.1 + a) % W, (st.2.1 + b) % W, (st.2.2.1 + c) % W, (st.2.2.2 + d) % W)

/-- The function `md5.Sum`: the sixteen digest bytes of a byte sequence. -/
def Sum (msg : List Nat) : List Nat :=
  let p := pad msg
  let (a, b, c, d) := blocks (p.length / 64) p (0x67452301, 0xefcdab89, 0x98badcfe, 0x10325476)
  [a, b, c, d].flatMap (fun w => (List.range 4).map (fun i => (w >>> (8 * i)) % 256))

/-- The lower-case hexadecimal digit of a value below 16. -/
def hexDigit (n : Nat) : Char := "0123456789abcdef".toList.getD n '0'

/-- The function `hex.EncodeToString`, which is also what the verb `%x` prints for a byte array. -/
def hex (bytes : List Nat) : String :=
  String.mk (bytes.flatMap (fun b => [hexDigit (b / 16), hexDigit (b % 16)]))

/-- The UTF-8 bytes of a string, as Go's `[]byte(s)`. -/
def bytesOf (s : String) : List Nat := s.toUTF8.toList.map UInt8.toNat

end md5

/-! ## knative.dev/pkg/kmeta: child names -/

namespace kmeta

/-- The longest name Kubernetes supports. -/
def longest : Nat := 63

/-- Length of a hex-encoded md5 digest. -/
def md5Len : Nat := 32

/-- How much of the parent is kept in front of the hash. -/
def head : Nat := longest - md5Len

/-- The loop of `makeValidName`: drop trailing characters that are not alphanumeric. -/
def makeValidName (n : String) : String :=
  String.mk (n.toList.reverse.dropWhile (fun c => !c.isAlphanum)).reverse

/-- The function `kmeta.ChildName(parent, suffix)`: the parent directly followed by the
suffix; when that exceeds 63 bytes the parent is cut and an md5 digest inserted. Lengths are
byte lengths; names are ASCII (DNS-1123), so cutting at a byte index is cutting at a
character index. -/
def ChildName (parent suffix : String) : String :=
  if parent.utf8ByteSize > longest - suffix.utf8ByteSize then
    if head ≤ suffix.utf8ByteSize then
      let h := md5.Sum (md5.bytesOf (parent ++ suffix))
      let parent1 := if head < parent.utf8ByteSize then parent.take head else parent
      let ret := parent1 ++ md5.hex h
      let d := longest - ret.utf8ByteSize
      makeValidName (if 0 < d then ret ++ suffix.take d else ret)
    else
      parent.take (head - suffix.utf8ByteSize) ++ md5.hex (md5.Sum (md5.bytesOf parent)) ++ suffix
  else
    parent ++ suffix

end kmeta

/-! ## fmt: formatting with string operands -/

namespace fmt

/-- The flag characters read after a percent sign. -/
def isFlag (c : Char) : Bool := c = '#' || c = '0' || c = '+' || c = '-' || c = ' '

/-- The loop of `parsenum`: the number read so far, whether a digit was seen, and the rest of
the format. A number above one million with a further digit gives up and skips to the end. -/
def parsenum (num : Nat) (isnum : Bool) : List Char → Nat × Bool × List Char
  | [] => (num, isnum, [])
  | c :: cs =>
    if c.isDigit then
      if num > 1000000 then (0, false, [])
      else parsenum (num * 10 + (c.toNat - 48)) true cs
    else (num, isnum, c :: cs)

/-- The function `parseArgNumber` on a format that starts with an opening bracket, given as
the characters after the bracket: the one-based index read, the rest of the format, and
whether an index was read. -/
def parseArgNumber (tl : List Char) : Nat × List Char × Bool :=
  if tl.length < 2 then (0, tl, false)
  else
    match tl.span (fun c => c ≠ ']') with
    | (_, []) => (0, tl, false)
    | (inner, _ :: after) =>
      match parsenum 0 false inner with
      | (width, true, []) => (width, after, true)
      | _ => (0, after, false)

/-- The method `argNumber`: an explicit operand index such as `[2]`. Returns the operand
number, the rest of the format, whether an index was found, whether the index was good, and
whether operands were reordered. -/
def argNumber (argNum : Nat) (cs : List Char) (numArgs : Nat) :
    Nat × List Char × Bool × Bool × Bool :=
  match cs with
  | '[' :: tl =>
    match parseArgNumber tl with
    | (width, rest, ok) =>
      if ok && 1 ≤ width && width - 1 < numArgs then (width - 1, rest, true, true, true)
      else (argNum, rest, ok, false, true)
  | _ => (argNum, cs, false, true, false)

/-- What `printArg` writes for a string operand: the operand under the verbs `s` and `v`, its
type under `T`, and the bad-verb form otherwise. Flags, width and precision do not change the
text here, and the verbs `q`, `x` and `X` are not given their own rendering: the formats this
program passes together with operands contain the plain verb `s` only. -/
def printArg (arg : String) (verb : Char) : List Char :=
  if verb = 's' || verb = 'v' then arg.toList
  else if verb = 'T' then "string".toList
  else "%!".toList ++ [verb] ++ "(string=".toList ++ arg.toList ++ ")".toList

/-- The operands left over when the format is used up. -/
def extra (rest : List String) : List Char :=
  "%!(EXTRA ".toList ++ (", ".intercalate (rest.map (fun s => "string=" ++ s))).toList ++ ")".toList

/-- The loop of `doPrintf` over the characters of the format: text is copied up to the next
percent sign; after it come flags, an operand index, a width, a precision, an operand index
and the verb. `fuel` bounds the number of iterations; each consumes a character. -/
def doPrintf (a : List String) : Nat → List Char → Nat → Bool → List Char
  | 0, _, _, _ => []
  | _ + 1, [], argNum, reordered =>
    if !reordered && argNum < a.length then extra (a.drop argNum) else []
  | fuel + 1, c :: cs, argNum, reordered =>
    if c ≠ '%' then c :: doPrintf a fuel cs argNum reordered
    else
      let cs1 := cs.dropWhile isFlag
      match argNumber argNum cs1 a.length with
      | (argNum1, cs2, afterIndex1, good1, reord1) =>
        -- width
        let (out3, argNum3, cs3, afterIndex3, good3) :=
          match cs2 with
          | '*' :: cs2a =>
            ("%!(BADWIDTH)".toList, (if argNum1 < a.length then argNum1 + 1 else argNum1), cs2a,
              false, good1)
          | _ =>
            match parsenum 0 false cs2 with
            | (_, widPresent, cs2a) =>
              ([], argNum1, cs2a, afterIndex1, good1 && !(afterIndex1 && widPresent))
        -- precision
        let (out4, argNum4, cs4, afterIndex4, good4, reord4) :=
          match cs3 with
          | '.' :: cs3a =>
            match argNumber argNum3 cs3a a.length with
            | (argNum3b, cs3b, afterIndex3b, good3b, reord3b) =>
              match cs3b with
              | '*' :: cs3c =>
                ("%!(BADPREC)".toList, (if argNum3b < a.length then argNum3b + 1 else argNum3b),
                  cs3c, false, good3 && !afterIndex3 && good3b, reord3b)
              | _ =>
                match parsenum 0 false cs3b with
                | (_, _, cs3c) =>
                  ([], argNum3b, cs3c, afterIndex3b, good3 && !afterIndex3 && good3b, reord3b)
          | _ => ([], argNum3, cs3, afterIndex3, good3, false)
        let (argNum5, cs5, good5, reord5) :=
          if afterIndex4 then (argNum4, cs4, good4, false)
          else
            match argNumber argNum4 cs4 a.length with
            | (n, rest, _, good, reord) => (n, rest, good4 && good, reord)
        let reordered1 := reordered || reord1 || reord4 || reord5
        match cs5 with
        | [] =>
          out3 ++ out4 ++ "%!(NOVERB)".toList ++
            (if !reordered1 && argNum5 < a.length then extra (a.drop argNum5) else [])
        | verb :: rest =>
          if verb = '%' then
            out3 ++ out4 ++ '%' :: doPrintf a fuel rest argNum5 reordered1
          else if !good5 then
            out3 ++ out4 ++ "%!".toList ++ [verb] ++ "(BADINDEX)".toList
              ++ doPrintf a fuel rest argNum5 reordered1
          else if a.length ≤ argNum5 then
            out3 ++ out4 ++ "%!".toList ++ [verb] ++ "(MISSING)".toList
              ++ doPrintf a fuel rest argNum5 reordered1
          else
            out3 ++ out4 ++ printArg (a.getD argNum5 "") verb
              ++ doPrintf a fuel rest (argNum5 + 1) reordered1

/-- The function `fmt.Sprintf(format, a...)` for string operands. -/
def Sprintf (format : String) (a : List String) : String :=
  String.mk (doPrintf a (format.length + 1) format.toList 0 false)

/-- The text of `fmt.Errorf(format + ": %w", err)` for a constant format ending in the
verb `w`: the text of the wrapped error, or the bad-verb form of a nil operand. -/
def Errorf (msg : String) (err : Option String) : String :=
  match err with
  | some e => msg ++ ": " ++ e
  | none => msg ++ ": %!w(<nil>)"

end fmt

/-! ## Kubernetes object metadata -/

namespace metav1

/-- The type `metav1.OwnerReference`. -/
structure OwnerReference where
  APIVersion : String
  Kind : String
  Name : String
  UID : String
  Controller : Option Bool
  BlockOwnerDeletion : Option Bool
deriving DecidableEq, Repr

/-- The type `metav1.Time`: an instant, in seconds from the zero value of `time.Time`; the
zero value is `0`. -/
structure Time where
  Seconds : Int
deriving DecidableEq, Repr

/-- The type `metav1.ObjectMeta`, in the order of its Go fields: the fields the reconciler
reads or writes, and the two fields that are set by the API server and are neither strings,
pointers, slices nor maps, `Generation` and `CreationTimestamp`. The fields left out
(`GenerateName`, `SelfLink`, `DeletionTimestamp`, `DeletionGracePeriodSeconds`, `Finalizers`,
`ManagedFields`) are strings, pointers and slices the reconciler leaves unset in the objects
it builds. -/
structure ObjectMeta where
  Name : String
  Namespace : String
  UID : String
  ResourceVersion : String
  Generation : Int
  CreationTimestamp : Time
  Labels : Option (List (String × String))
  Annotations : Option (List (String × String))
  OwnerReferences : List OwnerReference
deriving DecidableEq, Repr

end metav1

/-! ## prometheus-operator API types -/

namespace monitoringv1

/-- An alerting or recording rule (`monitoringv1.Rule`); the expression is kept as text. -/
structure Rule where
  Record : String
  Alert : String
  Expr : String
  For : Option String
  Labels : Option (List (String × String))
  Annotations : Option (List (String × String))
deriving DecidableEq, Repr

/-- The type `monitoringv1.RuleGroup`. -/
structure RuleGroup where
  Name : String
  Interval : Option String
  Rules : List Rule
  PartialResponseStrategy : String
  Limit : Option Int
deriving DecidableEq, Repr

/-- The type `monitoringv1.PrometheusRuleSpec`. -/
structure PrometheusRuleSpec where
  Groups : List RuleGroup
deriving DecidableEq, Repr

/-- The type `monitoringv1.PrometheusRule`. -/
structure PrometheusRule where
  ObjectMeta : metav1.ObjectMeta
  Spec : PrometheusRuleSpec
deriving DecidableEq, Repr

end monitoringv1

namespace monitoringv1alpha1

/-- The match type `MatchEqual`. -/
def MatchEqual : String := "="

/-- The type `monitoringv1alpha1.Matcher`. -/
structure Matcher where
  Name : String
  Value : String
  MatchType : String
  Regex : Bool
deriving DecidableEq, Repr

/-- The type `monitoringv1alpha1.Route`; child routes are kept as raw JSON text. -/
structure Route where
  Receiver : String
  GroupBy : List String
  GroupWait : String
  GroupInterval : String
  RepeatInterval : String
  Matchers : List Matcher
  Continue : Bool
  Routes : List String
  MuteTimeIntervals : List String
  ActiveTimeIntervals : List String
deriving DecidableEq, Repr

/-- The type `monitoringv1alpha1.SecretKeySelector`. -/
structure SecretKeySelector where
  Name : String
  Key : String
deriving DecidableEq, Repr

/-- Of `monitoringv1alpha1.HTTPConfig` only the proxy address is kept; the reconciler always
leaves the pointer to it nil. -/
structure HTTPConfig where
  ProxyURL : String
deriving DecidableEq, Repr

/-- The type `monitoringv1alpha1.WebhookConfig`. -/
structure WebhookConfig where
  SendResolved : Option Bool
  URL : Option String
  URLSecret : Option SecretKeySelector
  HTTPConfig : Option HTTPConfig
  MaxAlerts : Int
deriving DecidableEq, Repr

/-- The type `monitoringv1alpha1.Receiver`, with its webhook targets. -/
structure Receiver where
  Name : String
  WebhookConfigs : List WebhookConfig
deriving DecidableEq, Repr

/-- The type `monitoringv1alpha1.AlertmanagerConfigSpec`; inhibit rules are kept as text. -/
structure AlertmanagerConfigSpec where
  Route : Option Route
  Receivers : List Receiver
  InhibitRules : List String
deriving DecidableEq, Repr

/-- The type `monitoringv1alpha1.AlertmanagerConfig`. -/
structure AlertmanagerConfig where
  ObjectMeta : metav1.ObjectMeta
  Spec : AlertmanagerConfigSpec
deriving DecidableEq, Repr

end monitoringv1alpha1

/-! ## knative.dev/pkg/apis: addresses and conditions -/

namespace apis

/-- Of `apis.URL` the scheme, host and path. -/
structure URL where
  Scheme : String
  Host : String
  Path : String
deriving DecidableEq, Repr

/-- The method `(*URL).IsEmpty`: a nil pointer or the zero value. -/
def URL.IsEmpty : Option URL → Bool
  | none => true
  | some u => decide (u = { Scheme := "", Host := "", Path := "" })

/-- The method `(*URL).String`: the empty string for a nil pointer, else scheme, host and
path written as `net/url` does for a value with only these three set. -/
def URL.String : Option URL → String
  | none => ""
  | some u =>
    (if u.Scheme ≠ "" then u.Scheme ++ ":" else "")
      ++ (if (u.Scheme ≠ "" ∨ u.Host ≠ "") ∧ (u.Host ≠ "" ∨ u.Path ≠ "") then "//" else "")
      ++ u.Host
      ++ (if u.Path ≠ "" ∧ u.Path.front ≠ '/' ∧ u.Host ≠ "" then "/" else "")
      ++ u.Path

/-- The type `apis.Condition`, without severity and transition time. -/
structure Condition where
  Type_ : String
  Status : String
  Reason : String
  Message : String
deriving DecidableEq, Repr

/-- The happy condition of a living condition set. -/
def ConditionReady : String := "Ready"

/-- The method `GetCondition` of the condition manager. -/
def GetCondition (conds : List Condition) (t : String) : Option Condition :=
  conds.find? (fun c => c.Type_ = t)

/-- Go's `<` on strings, on their characters: lexicographic by code point, which is the
byte order of the UTF-8 encodings. -/
def stringLess : List Char → List Char → Bool
  | _, [] => false
  | [], _ :: _ => true
  | a :: as, b :: bs => a.toNat < b.toNat || (a.toNat = b.toNat && stringLess as bs)

/-- The method `SetCondition` of the condition manager: the condition of that type is
replaced and the conditions kept sorted by type; nothing changes when an equal condition is
already there. -/
def SetCondition (conds : List Condition) (cond : Condition) : List Condition :=
  if cond ∈ conds then conds
  else ((conds.filter (fun c => c.Type_ ≠ cond.Type_)) ++ [cond]).insertionSort
    (fun a b => stringLess b.Type_.toList a.Type_.toList = false)

/-- The method `findUnhappyDependent` for a set of `n` dependents: the first dependent that
is False, else the first that is Unknown, else a blank Unknown condition when a dependent
is not initialised. -/
def findUnhappyDependent (happy : String) (n : Nat) (conds : List Condition) :
    Option Condition :=
  let deps := conds.filter (fun c => c.Type_ ≠ happy)
  match deps.find? (fun c => c.Status = "False") with
  | some c => some c
  | none =>
    match deps.find? (fun c => c.Status = "Unknown") with
    | some c => some c
    | none =>
      if deps.length < n then some { Type_ := "", Status := "Unknown", Reason := "", Message := "" }
      else none

/-- A living condition set: the happy condition and its dependents. -/
structure ConditionSet where
  happy : String
  dependents : List String
deriving DecidableEq, Repr

/-- The method `MarkTrue`, followed by recomputing the happy condition. -/
def ConditionSet.MarkTrue (cs : ConditionSet) (conds : List Condition) (t : String) :
    List Condition :=
  let c1 := SetCondition conds { Type_ := t, Status := "True", Reason := "", Message := "" }
  match findUnhappyDependent cs.happy cs.dependents.length c1 with
  | some c =>
    SetCondition c1 { Type_ := cs.happy, Status := c.Status, Reason := c.Reason, Message := c.Message }
  | none =>
    if t ≠ cs.happy then
      SetCondition c1 { Type_ := cs.happy, Status := "True", Reason := "", Message := "" }
    else c1

/-- The method `MarkFalse`: the condition, and the happy condition when the condition is a
dependent, become False with the reason and the formatted message. -/
def ConditionSet.MarkFalse (cs : ConditionSet) (conds : List Condition) (t reason : String)
    (messageFormat : String) (messageA : List String) : List Condition :=
  let types := t :: (cs.dependents.filter (fun d => d = t)).map (fun _ => cs.happy)
  types.foldl (fun acc ty =>
    SetCondition acc
      { Type_ := ty, Status := "False", Reason := reason,
        Message := fmt.Sprintf messageFormat messageA }) conds

/-- The loop of `MarkUnknown` over the dependents, after the condition itself was set in
`c1`: a False dependent keeps the happy condition False and ends the call; otherwise the
happy condition becomes Unknown when the condition is a dependent. -/
def ConditionSet.markUnknownDependents (cs : ConditionSet) (c1 : List Condition)
    (t reason : String) (messageFormat : String) (messageA : List String) :
    List String → Bool → List Condition
  | [], isDependent =>
    if isDependent then
      SetCondition c1
        { Type_ := cs.happy, Status := "Unknown", Reason := reason,
          Message := fmt.Sprintf messageFormat messageA }
    else c1
  | d :: rest, isDependent =>
    if (GetCondition c1 d).any (fun c => c.Status = "False") then
      if (GetCondition c1 cs.happy).any (fun c => c.Status = "False") then c1
      else cs.MarkFalse c1 cs.happy reason messageFormat messageA
    else cs.markUnknownDependents c1 t reason messageFormat messageA rest (isDependent || d = t)

/-- The method `MarkUnknown`: the condition becomes Unknown with the reason and the formatted
message, then the dependents are checked. -/
def ConditionSet.MarkUnknown (cs : ConditionSet) (conds : List Condition) (t reason : String)
    (messageFormat : String) (messageA : List String) : List Condition :=
  cs.markUnknownDependents
    (SetCondition conds
      { Type_ := t, Status := "Unknown", Reason := reason,
        Message := fmt.Sprintf messageFormat messageA })
    t reason messageFormat messageA cs.dependents false

end apis

namespace duckv1

/-- The type `duckv1.KReference`. -/
structure KReference where
  Kind : String
  Namespace : String
  Name : String
  APIVersion : String
deriving DecidableEq, Repr

/-- The type `duckv1.Destination`: a reference, an address, or both. -/
structure Destination where
  Ref : Option KReference
  URI : Option apis.URL
deriving DecidableEq, Repr

/-- The type `duckv1.Addressable`. -/
structure Addressable where
  Name : Option String
  URL : Option apis.URL
  CACerts : Option String
  Audience : Option String
deriving DecidableEq, Repr

/-- The type `duckv1.SourceSpec`. -/
structure SourceSpec where
  Sink : Destination
deriving DecidableEq, Repr

/-- The type `duckv1.Status`. -/
structure Status where
  ObservedGeneration : Int
  Conditions : List apis.Condition
deriving DecidableEq, Repr

/-- The type `duckv1.SourceStatus`. -/
structure SourceStatus where
  Status : Status
  SinkURI : Option apis.URL
deriving DecidableEq, Repr

end duckv1

/-! ## pkg/apis/sources/v1alpha1 -/

namespace sources

/-- Label marking a resource as managed by this controller. -/
def SourceSelector : String := "prometheus.sources.knative.dev"

/-- Label holding the name of the owning source. -/
def SourceNameLabel : String := "prometheus.sources.knative.dev/name"

/-- Label holding the namespace of the owning source. -/
def SourceNamespaceLabel : String := "prometheus.sources.knative.dev/namespace"

/-- The wrapper type `PrometheusRuleSpec` around the prometheus rule spec. -/
structure PrometheusRuleSpec where
  Rule : monitoringv1.PrometheusRuleSpec
  GroupWait : String
  GroupInterval : String
  RepeatInterval : String
  GroupBy : List String
  MuteTimeIntervals : List String
  ActiveTimeIntervals : List String
deriving DecidableEq, Repr

/-- The type `PrometheusRuleEventSpec`; `Data` is the optional raw JSON payload. -/
structure PrometheusRuleEventSpec where
  Source : String
  Type_ : String
  Subject : String
  DataSchema : String
  Data : Option (List Nat)
deriving DecidableEq, Repr

/-- The type `PrometheusRuleSourceSpec`. -/
structure PrometheusRuleSourceSpec where
  Rule : PrometheusRuleSpec
  Event : PrometheusRuleEventSpec
  SourceSpec : duckv1.SourceSpec
  Reply : Option duckv1.Destination
deriving DecidableEq, Repr

/-- The type `PrometheusRuleSourceStatus`. -/
structure PrometheusRuleSourceStatus where
  SourceStatus : duckv1.SourceStatus
deriving DecidableEq, Repr

/-- The type `PrometheusRuleSource`. -/
structure PrometheusRuleSource where
  ObjectMeta : metav1.ObjectMeta
  Spec : PrometheusRuleSourceSpec
  Status : PrometheusRuleSourceStatus
deriving DecidableEq, Repr

/-- The group and version of the source type, `SchemeGroupVersion.String()`. The variable is
declared in the package's `register.go`. -/
def SchemeGroupVersion : String := "sources.knative.dev/v1alpha1"

/-- The kind given to `SchemeGroupVersion.WithKind` in `GetGroupVersionKind`. -/
def Kind : String := "PrometheusRuleSource"

/-- The condition type `PrometheusRuleConditionSinkProvided`. -/
def PrometheusRuleConditionSinkProvided : String := "SinkProvided"

/-- The living condition set `PrometheusRuleCondSet`. -/
def PrometheusRuleCondSet : apis.ConditionSet :=
  { happy := apis.ConditionReady, dependents := [PrometheusRuleConditionSinkProvided] }

/-- The method `PrometheusRuleSourceStatus.GetCondition`. -/
def PrometheusRuleSourceStatus.GetCondition (s : PrometheusRuleSourceStatus) (t : String) :
    Option apis.Condition :=
  apis.GetCondition s.SourceStatus.Status.Conditions t

/-- Writing the conditions back into the status. -/
def PrometheusRuleSourceStatus.SetConditions (s : PrometheusRuleSourceStatus)
    (conds : List apis.Condition) : PrometheusRuleSourceStatus :=
  { s with SourceStatus := { s.SourceStatus with
      Status := { s.SourceStatus.Status with Conditions := conds } } }

/-- The method `PrometheusRuleSourceStatus.MarkSink`. -/
def PrometheusRuleSourceStatus.MarkSink (s : PrometheusRuleSourceStatus)
    (uri : Option apis.URL) : PrometheusRuleSourceStatus :=
  let s1 : PrometheusRuleSourceStatus := { s with SourceStatus := { s.SourceStatus with SinkURI := uri } }
  if !apis.URL.IsEmpty uri then
    s1.SetConditions
      (PrometheusRuleCondSet.MarkTrue s1.SourceStatus.Status.Conditions
        PrometheusRuleConditionSinkProvided)
  else
    s1.SetConditions
      (PrometheusRuleCondSet.MarkUnknown s1.SourceStatus.Status.Conditions
        PrometheusRuleConditionSinkProvided "SinkEmpty" "Sink has resolved to empty.%s" [""])

/-- The method `PrometheusRuleSourceStatus.MarkNoSink`. -/
def PrometheusRuleSourceStatus.MarkNoSink (s : PrometheusRuleSourceStatus)
    (reason messageFormat : String) (messageA : List String) : PrometheusRuleSourceStatus :=
  s.SetConditions
    (PrometheusRuleCondSet.MarkFalse s.SourceStatus.Status.Conditions
      PrometheusRuleConditionSinkProvided reason messageFormat messageA)

/-- The method `PrometheusRuleSourceSpec.SetDefaults`; `parentName` and `parentNamespace`
are `apis.ParentMeta(ctx).Name` and `apis.ParentMeta(ctx).Namespace`. -/
def PrometheusRuleSourceSpec.SetDefaults (s : PrometheusRuleSourceSpec)
    (parentName parentNamespace : String) : PrometheusRuleSourceSpec :=
  let setRule := fun (rule : monitoringv1.Rule) =>
    let l1 := gomap.insert (rule.Labels.getD []) SourceNameLabel parentName
    { rule with Labels := some (gomap.insert l1 SourceNamespaceLabel parentNamespace) }
  let setGroup := fun (g : monitoringv1.RuleGroup) => { g with Rules := g.Rules.map setRule }
  let groups := s.Rule.Rule.Groups.map setGroup
  { s with Rule := { s.Rule with Rule := { s.Rule.Rule with Groups := groups } } }

/-- The method `PrometheusRuleSource.SetDefaults`. -/
def PrometheusRuleSource.SetDefaults (s : PrometheusRuleSource) : PrometheusRuleSource :=
  { s with
    ObjectMeta := { s.ObjectMeta with
      Labels := some (gomap.insert (s.ObjectMeta.Labels.getD []) SourceNameLabel s.ObjectMeta.Name) },
    Spec := s.Spec.SetDefaults s.ObjectMeta.Name s.ObjectMeta.Namespace }

end sources

/-! ## k8s.io/apimachinery equality: derivative comparison

`equality.Semantic.DeepDerivative(a1, a2)` walks both values by reflection: an empty string,
a nil or empty slice or map and a nil pointer in `a1` are not compared; maps compare the
keys of `a1`; slices compare element by element over the length of `a1`; structs compare
field by field; booleans and numbers compare by equality. The functions below are that walk
written out for the types of this model. -/

namespace equality

/-- Strings: unset in `a1`, or equal. -/
def derivString (a b : String) : Bool := a = "" || a = b

/-- Pointers: nil in `a1`, or both set and the pointees derivative. -/
def derivPtr {α : Type} (f : α → α → Bool) : Option α → Option α → Bool
  | none, _ => true
  | some _, none => false
  | some x, some y => f x y

/-- Slices: empty in `a1`, or no longer than `a2` and derivative element by element. -/
def derivSlice {α : Type} (f : α → α → Bool) : List α → List α → Bool
  | [], _ => true
  | _ :: _, [] => false
  | a :: as, b :: bs => f a b && derivSlice f as bs

/-- Maps: nil or empty in `a1`, or every key of `a1` present in `a2` under a derivative value.
Entries are read through `gomap.lookup`. The library also tests that `a1` is no larger than
`a2`, which the key test implies. -/
def derivMap (a b : Option (List (String × String))) : Bool :=
  match a with
  | none => true
  | some ea =>
    ea.all (fun e =>
      match gomap.lookup ea e.1, gomap.lookup (b.getD []) e.1 with
      | some va, some vb => derivString va vb
      | _, _ => false)

/-- Derivative comparison of `metav1.OwnerReference`. -/
def derivOwnerReference (a b : metav1.OwnerReference) : Bool :=
  derivString a.APIVersion b.APIVersion && derivString a.Kind b.Kind &&
    derivString a.Name b.Name && derivString a.UID b.UID &&
    derivPtr (fun x y => x == y) a.Controller b.Controller &&
    derivPtr (fun x y => x == y) a.BlockOwnerDeletion b.BlockOwnerDeletion

/-- Derivative comparison of `metav1.ObjectMeta`, field by field. `Generation` is an `int64`
and compares by equality. `CreationTimestamp` is a `metav1.Time`, for which
`equality.Semantic` registers its own function: equality of the two instants. The fields of
`ObjectMeta` that are not modelled are unset in `a` wherever the reconciler calls the
comparison, and an unset string, pointer or slice is not compared. -/
def derivObjectMeta (a b : metav1.ObjectMeta) : Bool :=
  derivString a.Name b.Name && derivString a.Namespace b.Namespace &&
    derivString a.UID b.UID && derivString a.ResourceVersion b.ResourceVersion &&
    decide (a.Generation = b.Generation) &&
    decide (a.CreationTimestamp = b.CreationTimestamp) &&
    derivMap a.Labels b.Labels && derivMap a.Annotations b.Annotations &&
    derivSlice derivOwnerReference a.OwnerReferences b.OwnerReferences

/-- Derivative comparison of `monitoringv1.Rule`. -/
def derivRule (a b : monitoringv1.Rule) : Bool :=
  derivString a.Record b.Record && derivString a.Alert b.Alert && derivString a.Expr b.Expr &&
    derivPtr derivString a.For b.For && derivMap a.Labels b.Labels &&
    derivMap a.Annotations b.Annotations

/-- Derivative comparison of `monitoringv1.RuleGroup`. -/
def derivRuleGroup (a b : monitoringv1.RuleGroup) : Bool :=
  derivString a.Name b.Name && derivPtr derivString a.Interval b.Interval &&
    derivSlice derivRule a.Rules b.Rules &&
    derivString a.PartialResponseStrategy b.PartialResponseStrategy &&
    derivPtr (fun x y => x == y) a.Limit b.Limit

/-- The call `equality.Semantic.DeepDerivative(pr, got)` on two `PrometheusRule` objects. -/
def DeepDerivativePrometheusRule (a b : monitoringv1.PrometheusRule) : Bool :=
  derivObjectMeta a.ObjectMeta b.ObjectMeta &&
    derivSlice derivRuleGroup a.Spec.Groups b.Spec.Groups

/-- Derivative comparison of `monitoringv1alpha1.Matcher`. -/
def derivMatcher (a b : monitoringv1alpha1.Matcher) : Bool :=
  derivString a.Name b.Name && derivString a.Value b.Value &&
    derivString a.MatchType b.MatchType && a.Regex == b.Regex

/-- Derivative comparison of `monitoringv1alpha1.Route`. -/
def derivRoute (a b : monitoringv1alpha1.Route) : Bool :=
  derivString a.Receiver b.Receiver && derivSlice derivString a.GroupBy b.GroupBy &&
    derivString a.GroupWait b.GroupWait && derivString a.GroupInterval b.GroupInterval &&
    derivString a.RepeatInterval b.RepeatInterval &&
    derivSlice derivMatcher a.Matchers b.Matchers && a.Continue == b.Continue &&
    derivSlice derivString a.Routes b.Routes &&
    derivSlice derivString a.MuteTimeIntervals b.MuteTimeIntervals &&
    derivSlice derivString a.ActiveTimeIntervals b.ActiveTimeIntervals

/-- Derivative comparison of `monitoringv1alpha1.WebhookConfig`. -/
def derivWebhookConfig (a b : monitoringv1alpha1.WebhookConfig) : Bool :=
  derivPtr (fun x y => x == y) a.SendResolved b.SendResolved &&
    derivPtr derivString a.URL b.URL &&
    derivPtr (fun x y => derivString x.Name y.Name && derivString x.Key y.Key)
      a.URLSecret b.URLSecret &&
    derivPtr (fun x y => derivString x.ProxyURL y.ProxyURL) a.HTTPConfig b.HTTPConfig &&
    a.MaxAlerts == b.MaxAlerts

/-- Derivative comparison of `monitoringv1alpha1.Receiver`. -/
def derivReceiver (a b : monitoringv1alpha1.Receiver) : Bool :=
  derivString a.Name b.Name && derivSlice derivWebhookConfig a.WebhookConfigs b.WebhookConfigs

/-- The call `equality.Semantic.DeepDerivative(amc, got)` on two `AlertmanagerConfig`
objects. -/
def DeepDerivativeAlertmanagerConfig (a b : monitoringv1alpha1.AlertmanagerConfig) : Bool :=
  derivObjectMeta a.ObjectMeta b.ObjectMeta &&
    derivPtr derivRoute a.Spec.Route b.Spec.Route &&
    derivSlice derivReceiver a.Spec.Receivers b.Spec.Receivers &&
    derivSlice derivString a.Spec.InhibitRules b.Spec.InhibitRules

end equality

/-! ## pkg/reconciler/prometheusrulesource -/

namespace prometheusrulesource

open sources

/-- A call on a remote collaborator, with its arguments. -/
inductive Call where
  | ListPrometheusRules (ns : String) (selector : List (String × String))
  | CreatePrometheusRule (ns : String) (rule : monitoringv1.PrometheusRule)
  | UpdatePrometheusRule (ns : String) (rule : monitoringv1.PrometheusRule)
  | DeletePrometheusRule (ns name : String) (preconditionUID : String)
  | AddressableFromDestinationV1 (dest : duckv1.Destination)
  | ListAlertmanagerConfigs (ns : String) (selector : List (String × String))
  | CreateAlertmanagerConfig (ns : String) (amc : monitoringv1alpha1.AlertmanagerConfig)
  | UpdateAlertmanagerConfig (ns : String) (amc : monitoringv1alpha1.AlertmanagerConfig)
  | DeleteAlertmanagerConfig (ns name : String) (preconditionUID : String)
deriving DecidableEq, Repr

/-- An event recorded on the source by `Eventf`. -/
structure Event where
  Eventtype : String
  Reason : String
  Message : String
deriving DecidableEq, Repr

/-- The event type `corev1.EventTypeNormal`. -/
def EventTypeNormal : String := "Normal"

/-- The typed clients behind `promclient.Interface`, over a cluster state `σ`: each call
returns its error and the state it leaves. -/
structure PromClient (σ : Type) where
  CreatePrometheusRule : σ → String → monitoringv1.PrometheusRule → Option String × σ
  UpdatePrometheusRule : σ → String → monitoringv1.PrometheusRule → Option String × σ
  DeletePrometheusRule : σ → String → String → String → Option String × σ
  CreateAlertmanagerConfig : σ → String → monitoringv1alpha1.AlertmanagerConfig → Option String × σ
  UpdateAlertmanagerConfig : σ → String → monitoringv1alpha1.AlertmanagerConfig → Option String × σ
  DeleteAlertmanagerConfig : σ → String → String → String → Option String × σ

/-- The struct `Reconciler`: the resolver, the client and the two listers. The resolver
returns an address and an error; a lister returns the objects found in a namespace under a
label selector, and an error. -/
structure Reconciler (σ : Type) where
  resolver : σ → duckv1.Destination → PrometheusRuleSource →
    Option duckv1.Addressable × Option String
  promClient : PromClient σ
  promRuleLister : σ → String → List (String × String) →
    List monitoringv1.PrometheusRule × Option String
  alertManagerConfigLister : σ → String → List (String × String) →
    List monitoringv1alpha1.AlertmanagerConfig × Option String

/-- What a reconcile pass works on: the source object behind the pointer `src`, the cluster
state, the calls issued and the events recorded so far. -/
structure World (σ : Type) where
  src : PrometheusRuleSource
  cluster : σ
  calls : List Call
  events : List Event

/-- How a call ends: it returns an error value, nil or not, or it panics. -/
inductive Outcome where
  | returned (err : Option String)
  | panicked (msg : String)
deriving DecidableEq, Repr

/-- A pass starting on a source and a cluster state with nothing issued yet. -/
def World.start {σ : Type} (src : PrometheusRuleSource) (cluster : σ) : World σ :=
  { src := src, cluster := cluster, calls := [], events := [] }

/-- Appending a call to the trace. -/
def World.call {σ : Type} (w : World σ) (c : Call) : World σ :=
  { w with calls := w.calls ++ [c] }

/-- The call `controller.GetEventRecorder(ctx).Eventf(src, eventtype, reason, message)`. -/
def World.Eventf {σ : Type} (w : World σ) (eventtype reason message : String) : World σ :=
  { w with events := w.events ++ [{ Eventtype := eventtype, Reason := reason, Message := message }] }

/-- The owner reference both children carry. -/
def ownerReference (src : PrometheusRuleSource) : metav1.OwnerReference :=
  { APIVersion := SchemeGroupVersion, Kind := Kind, Name := src.ObjectMeta.Name,
    UID := src.ObjectMeta.UID, Controller := some true, BlockOwnerDeletion := some false }

/-- The method `createPrometheusRule`. -/
def Reconciler.createPrometheusRule {σ : Type} (r : Reconciler σ) (w : World σ)
    (rule : monitoringv1.PrometheusRule) : Option String × World σ :=
  let res := r.promClient.CreatePrometheusRule w.cluster rule.ObjectMeta.Namespace rule
  let w1 := { w.call (Call.CreatePrometheusRule rule.ObjectMeta.Namespace rule) with cluster := res.2 }
  match res.1 with
  | some err =>
    (some (fmt.Errorf ("failed to create prometheus rule " ++ rule.ObjectMeta.Namespace ++ "/"
      ++ rule.ObjectMeta.Name) (some err)), w1)
  | none =>
    (none, w1.Eventf EventTypeNormal "Created" ("Created Prometheus rule "
      ++ rule.ObjectMeta.Namespace ++ "/" ++ rule.ObjectMeta.Name))

/-- The method `updatePrometheusRule`. -/
def Reconciler.updatePrometheusRule {σ : Type} (r : Reconciler σ) (w : World σ)
    (rule : monitoringv1.PrometheusRule) : Option String × World σ :=
  let res := r.promClient.UpdatePrometheusRule w.cluster rule.ObjectMeta.Namespace rule
  let w1 := { w.call (Call.UpdatePrometheusRule rule.ObjectMeta.Namespace rule) with cluster := res.2 }
  match res.1 with
  | some err =>
    (some (fmt.Errorf ("failed to update prometheus rule " ++ rule.ObjectMeta.Namespace ++ "/"
      ++ rule.ObjectMeta.Name) (some err)), w1)
  | none =>
    (none, w1.Eventf EventTypeNormal "Updated" ("Updated Prometheus rule "
      ++ rule.ObjectMeta.Namespace ++ "/" ++ rule.ObjectMeta.Name))

/-- The method `deletePrometheusRules`: the loop stops at the first failed deletion. -/
def Reconciler.deletePrometheusRules {σ : Type} (r : Reconciler σ) (w : World σ) :
    List monitoringv1.PrometheusRule → Option String × World σ
  | [] => (none, w)
  | rule :: rest =>
    let res := r.promClient.DeletePrometheusRule w.cluster rule.ObjectMeta.Namespace
      rule.ObjectMeta.Name rule.ObjectMeta.UID
    let w1 := { w.call (Call.DeletePrometheusRule rule.ObjectMeta.Namespace rule.ObjectMeta.Name
      rule.ObjectMeta.UID) with cluster := res.2 }
    match res.1 with
    | some err =>
      (some (fmt.Errorf ("failed to delete prometheus rule " ++ rule.ObjectMeta.Namespace ++ "/"
        ++ rule.ObjectMeta.Name) (some err)), w1)
    | none =>
      r.deletePrometheusRules (w1.Eventf EventTypeNormal "Deleted" ("Deleted Prometheus rule "
        ++ rule.ObjectMeta.Namespace ++ "/" ++ rule.ObjectMeta.Name)) rest

/-- The `PrometheusRule` built at the top of `reconcilePrometheusRule`, for a source whose
label map has the entries `labels`; the selector label is already set. -/
def desiredPrometheusRule (src : PrometheusRuleSource) (labels : List (String × String)) :
    monitoringv1.PrometheusRule :=
  { ObjectMeta :=
      { Name := kmeta.ChildName src.ObjectMeta.Name "kne",
        Namespace := src.ObjectMeta.Namespace,
        UID := "",
        ResourceVersion := "",
        Generation := 0,
        CreationTimestamp := { Seconds := 0 },
        Labels := some (gomap.insert labels SourceSelector "true"),
        Annotations := src.ObjectMeta.Annotations,
        OwnerReferences := [ownerReference src] },
    Spec := src.Spec.Rule.Rule }

/-- The method `reconcilePrometheusRule`. The label map of the child is the label map of
the source, so writing the selector label writes it on the source too, and panics on a nil
map. The deferred `deletePrometheusRules` runs when the method returns; what it returns is
dropped. -/
def Reconciler.reconcilePrometheusRule {σ : Type} (r : Reconciler σ) (w : World σ) :
    Outcome × World σ :=
  match w.src.ObjectMeta.Labels with
  | none => (Outcome.panicked "assignment to entry in nil map", w)
  | some labels =>
    let src := w.src
    let pr := desiredPrometheusRule src labels
    let w0 := { w with src := { src with ObjectMeta := { src.ObjectMeta with Labels := pr.ObjectMeta.Labels } } }
    let selector := [(SourceNameLabel, src.ObjectMeta.Name)]
    let w1 := w0.call (Call.ListPrometheusRules src.ObjectMeta.Namespace selector)
    match r.promRuleLister w1.cluster src.ObjectMeta.Namespace selector with
    | (_, some err) => (Outcome.returned (some (fmt.Errorf "failed to list prometheus rules" (some err))), w1)
    | ([], none) =>
      let res := r.createPrometheusRule w1 pr
      (Outcome.returned res.1, res.2)
    | (got :: toBeDeleted, none) =>
      if equality.DeepDerivativePrometheusRule pr got then
        (Outcome.returned none, (r.deletePrometheusRules w1 toBeDeleted).2)
      else
        let pr1 := { pr with ObjectMeta := { pr.ObjectMeta with ResourceVersion := got.ObjectMeta.ResourceVersion } }
        let res := r.updatePrometheusRule w1 pr1
        (Outcome.returned res.1, (r.deletePrometheusRules res.2 toBeDeleted).2)

/-- The method `createAlertManagerConfig`. -/
def Reconciler.createAlertManagerConfig {σ : Type} (r : Reconciler σ) (w : World σ)
    (amc : monitoringv1alpha1.AlertmanagerConfig) : Option String × World σ :=
  let res := r.promClient.CreateAlertmanagerConfig w.cluster amc.ObjectMeta.Namespace amc
  let w1 := { w.call (Call.CreateAlertmanagerConfig amc.ObjectMeta.Namespace amc) with cluster := res.2 }
  match res.1 with
  | some err =>
    (some (fmt.Errorf ("failed to create alert manager config " ++ amc.ObjectMeta.Namespace ++ "/"
      ++ amc.ObjectMeta.Name) (some err)), w1)
  | none =>
    (none, w1.Eventf EventTypeNormal "Created" ("Created AlertManager config "
      ++ amc.ObjectMeta.Namespace ++ "/" ++ amc.ObjectMeta.Name))

/-- The method `updateAlertManagerConfig`. -/
def Reconciler.updateAlertManagerConfig {σ : Type} (r : Reconciler σ) (w : World σ)
    (amc : monitoringv1alpha1.AlertmanagerConfig) : Option String × World σ :=
  let res := r.promClient.UpdateAlertmanagerConfig w.cluster amc.ObjectMeta.Namespace amc
  let w1 := { w.call (Call.UpdateAlertmanagerConfig amc.ObjectMeta.Namespace amc) with cluster := res.2 }
  match res.1 with
  | some err =>
    (some (fmt.Errorf ("failed to update alert manager config " ++ amc.ObjectMeta.Namespace ++ "/"
      ++ amc.ObjectMeta.Name) (some err)), w1)
  | none =>
    (none, w1.Eventf EventTypeNormal "Updated" ("Updated AlertManager config "
      ++ amc.ObjectMeta.Namespace ++ "/" ++ amc.ObjectMeta.Name))

/-- The method `deleteAlertManagerConfig`: the loop stops at the first failed deletion; the
event of a deletion carries the reason `Updated`. -/
def Reconciler.deleteAlertManagerConfig {σ : Type} (r : Reconciler σ) (w : World σ) :
    List monitoringv1alpha1.AlertmanagerConfig → Option String × World σ
  | [] => (none, w)
  | amc :: rest =>
    let res := r.promClient.DeleteAlertmanagerConfig w.cluster amc.ObjectMeta.Namespace
      amc.ObjectMeta.Name amc.ObjectMeta.UID
    let w1 := { w.call (Call.DeleteAlertmanagerConfig amc.ObjectMeta.Namespace amc.ObjectMeta.Name
      amc.ObjectMeta.UID) with cluster := res.2 }
    match res.1 with
    | some err =>
      (some (fmt.Errorf ("failed to delete alert manager config " ++ amc.ObjectMeta.Namespace
        ++ "/" ++ amc.ObjectMeta.Name) (some err)), w1)
    | none =>
      r.deleteAlertManagerConfig (w1.Eventf EventTypeNormal "Updated"
        ("Updated AlertManager config " ++ amc.ObjectMeta.Namespace ++ "/" ++ amc.ObjectMeta.Name))
        rest

/-- The `AlertmanagerConfig` built in `reconcileAlertManagerConfig` for a resolved address,
for a source whose label map has the entries `labels`; the selector label is already set. -/
def desiredAlertmanagerConfig (src : PrometheusRuleSource) (labels : List (String × String))
    (addr : duckv1.Addressable) : monitoringv1alpha1.AlertmanagerConfig :=
  { ObjectMeta :=
      { Name := kmeta.ChildName src.ObjectMeta.Name "kne",
        Namespace := src.ObjectMeta.Namespace,
        UID := "",
        ResourceVersion := "",
        Generation := 0,
        CreationTimestamp := { Seconds := 0 },
        Labels := some (gomap.insert labels SourceSelector "true"),
        Annotations := src.ObjectMeta.Annotations,
        OwnerReferences := [ownerReference src] },
    Spec :=
      { Route := some
          { Receiver := src.ObjectMeta.Namespace ++ "-" ++ src.ObjectMeta.Name,
            GroupBy := [SourceNameLabel, SourceNamespaceLabel] ++ src.Spec.Rule.GroupBy,
            GroupWait := src.Spec.Rule.GroupWait,
            GroupInterval := src.Spec.Rule.GroupInterval,
            RepeatInterval := src.Spec.Rule.RepeatInterval,
            Matchers :=
              [{ Name := SourceNameLabel, Value := src.ObjectMeta.Name,
                 MatchType := monitoringv1alpha1.MatchEqual, Regex := false },
               { Name := SourceNamespaceLabel, Value := src.ObjectMeta.Name,
                 MatchType := monitoringv1alpha1.MatchEqual, Regex := false }],
            Continue := false,
            Routes := [],
            MuteTimeIntervals := src.Spec.Rule.MuteTimeIntervals,
            ActiveTimeIntervals := src.Spec.Rule.ActiveTimeIntervals },
        Receivers :=
          [{ Name := src.ObjectMeta.Namespace ++ "-" ++ src.ObjectMeta.Name,
             WebhookConfigs :=
               [{ SendResolved := some false,
                  URL := some (apis.URL.String addr.URL),
                  URLSecret := none,
                  HTTPConfig := none,
                  MaxAlerts := 1 }] }],
        InhibitRules := [] } }

/-- The method `reconcileAlertManagerConfig`. `MarkSink` receives the address of the
resolved addressable. The deferred `deleteAlertManagerConfig` runs when the method returns;
what it returns is dropped. -/
def Reconciler.reconcileAlertManagerConfig {σ : Type} (r : Reconciler σ) (w : World σ) :
    Outcome × World σ :=
  let w1 := w.call (Call.AddressableFromDestinationV1 w.src.Spec.SourceSpec.Sink)
  match r.resolver w.cluster w.src.Spec.SourceSpec.Sink w.src with
  | (some addr, none) =>
    let src := { w1.src with Status := w1.src.Status.MarkSink addr.URL }
    match src.ObjectMeta.Labels with
    | none => (Outcome.panicked "assignment to entry in nil map", { w1 with src := src })
    | some labels =>
      let amc := desiredAlertmanagerConfig src labels addr
      let w2 := { w1 with src := { src with ObjectMeta := { src.ObjectMeta with Labels := amc.ObjectMeta.Labels } } }
      let selector := [(SourceNameLabel, src.ObjectMeta.Name)]
      let w3 := w2.call (Call.ListAlertmanagerConfigs src.ObjectMeta.Namespace selector)
      match r.alertManagerConfigLister w3.cluster src.ObjectMeta.Namespace selector with
      | (_, some err) =>
        (Outcome.returned (some (fmt.Errorf "failed to list alertmanager configs " (some err))), w3)
      | ([], none) =>
        let res := r.createAlertManagerConfig w3 amc
        (Outcome.returned res.1, res.2)
      | (got :: toBeDeleted, none) =>
        if equality.DeepDerivativeAlertmanagerConfig amc got then
          (Outcome.returned none, (r.deleteAlertManagerConfig w3 toBeDeleted).2)
        else
          let amc1 := { amc with ObjectMeta := { amc.ObjectMeta with ResourceVersion := got.ObjectMeta.ResourceVersion } }
          let res := r.updateAlertManagerConfig w3 amc1
          (Outcome.returned res.1, (r.deleteAlertManagerConfig res.2 toBeDeleted).2)
  | (_, err) =>
    let err1 := fmt.Errorf "failed to resolve sink address" err
    (Outcome.returned (some err1),
      { w1 with src := { w1.src with Status := w1.src.Status.MarkNoSink "Error" err1 [] } })

/-- The method `reconcilePrometheusResources`. -/
def Reconciler.reconcilePrometheusResources {σ : Type} (r : Reconciler σ) (w : World σ) :
    Outcome × World σ :=
  match r.reconcilePrometheusRule w with
  | (Outcome.panicked msg, w1) => (Outcome.panicked msg, w1)
  | (Outcome.returned (some err), w1) =>
    (Outcome.returned (some (fmt.Errorf "failed to reconcile prometheus rule" (some err))), w1)
  | (Outcome.returned none, w1) =>
    match r.reconcileAlertManagerConfig w1 with
    | (Outcome.panicked msg, w2) => (Outcome.panicked msg, w2)
    | (Outcome.returned (some err), w2) =>
      (Outcome.returned (some (fmt.Errorf "failed to reconcile alert manager config" (some err))), w2)
    | (Outcome.returned none, w2) => (Outcome.returned none, w2)

/-- The method `ReconcileKind`. -/
def Reconciler.ReconcileKind {σ : Type} (r : Reconciler σ) (w : World σ) : Outcome × World σ :=
  match r.reconcilePrometheusResources w with
  | (Outcome.panicked msg, w1) => (Outcome.panicked msg, w1)
  | (Outcome.returned (some err), w1) =>
    (Outcome.returned (some (fmt.Errorf "failed to reconcile prometheus resources" (some err))), w1)
  | (Outcome.returned none, w1) => (Outcome.returned none, w1)

end prometheusrulesource

/-! ## The reference algorithm of the design -/

namespace design

/-- The mutations the Convergence Decider of the design can ask for. -/
inductive Action (α : Type) where
  | Create (desired : α)
  | Update (desired : α)
  | Delete (surplus : α)
deriving DecidableEq, Repr

/-- The algorithm of the design, section 4.3, in the words of the design: an empty owned list
gives `Create(desired)` and no deletion; otherwise the first element is canonical, the rest
is surplus; a satisfied desired state gives no update, an unsatisfied one
`Update(desired stamped with the resource version of canonical)`; the surplus is deleted in
both cases. -/
def Converge {α : Type} (satisfied : α → α → Bool) (stamp : α → α → α) (desired : α) :
    List α → List (Action α)
  | [] => [Action.Create desired]
  | canonical :: surplus =>
    (if satisfied desired canonical then [] else [Action.Update (stamp desired canonical)])
      ++ surplus.map Action.Delete

end design

namespace prometheusrulesource

open sources

/-- The desired rule with the resource version of the canonical rule. -/
def stampPrometheusRule (desired canonical : monitoringv1.PrometheusRule) :
    monitoringv1.PrometheusRule :=
  { desired with ObjectMeta := { desired.ObjectMeta with ResourceVersion := canonical.ObjectMeta.ResourceVersion } }

/-- The desired routing config with the resource version of the canonical one. -/
def stampAlertmanagerConfig (desired canonical : monitoringv1alpha1.AlertmanagerConfig) :
    monitoringv1alpha1.AlertmanagerConfig :=
  { desired with ObjectMeta := { desired.ObjectMeta with ResourceVersion := canonical.ObjectMeta.ResourceVersion } }

/-- The client call that carries out an action of the design on a rule: a deletion names the
child and carries its UID as precondition. -/
def ruleCall : design.Action monitoringv1.PrometheusRule → Call
  | design.Action.Create d => Call.CreatePrometheusRule d.ObjectMeta.Namespace d
  | design.Action.Update d => Call.UpdatePrometheusRule d.ObjectMeta.Namespace d
  | design.Action.Delete c =>
    Call.DeletePrometheusRule c.ObjectMeta.Namespace c.ObjectMeta.Name c.ObjectMeta.UID

/-- The client call that carries out an action of the design on a routing config. -/
def amcCall : design.Action monitoringv1alpha1.AlertmanagerConfig → Call
  | design.Action.Create d => Call.CreateAlertmanagerConfig d.ObjectMeta.Namespace d
  | design.Action.Update d => Call.UpdateAlertmanagerConfig d.ObjectMeta.Namespace d
  | design.Action.Delete c =>
    Call.DeleteAlertmanagerConfig c.ObjectMeta.Namespace c.ObjectMeta.Name c.ObjectMeta.UID

/-- Every create, update and delete call succeeds, in every cluster state. -/
def Reconciler.writesSucceed {σ : Type} (r : Reconciler σ) : Prop :=
  (∀ s ns o, (r.promClient.CreatePrometheusRule s ns o).1 = none) ∧
  (∀ s ns o, (r.promClient.UpdatePrometheusRule s ns o).1 = none) ∧
  (∀ s ns n u, (r.promClient.DeletePrometheusRule s ns n u).1 = none) ∧
  (∀ s ns o, (r.promClient.CreateAlertmanagerConfig s ns o).1 = none) ∧
  (∀ s ns o, (r.promClient.UpdateAlertmanagerConfig s ns o).1 = none) ∧
  (∀ s ns n u, (r.promClient.DeleteAlertmanagerConfig s ns n u).1 = none)

/-- Whether a call creates, updates or deletes a child. -/
def Call.isMutation : Call → Bool
  | Call.ListPrometheusRules _ _ => false
  | Call.AddressableFromDestinationV1 _ => false
  | Call.ListAlertmanagerConfigs _ _ => false
  | _ => true

/-- Whether a call goes to the routing kind: list, create, update or delete of an
`AlertmanagerConfig`. -/
def Call.isRouting : Call → Bool
  | Call.ListAlertmanagerConfigs _ _ => true
  | Call.CreateAlertmanagerConfig _ _ => true
  | Call.UpdateAlertmanagerConfig _ _ => true
  | Call.DeleteAlertmanagerConfig _ _ _ => true
  | _ => false

/-- Whether a call is the sink resolution. -/
def Call.isResolve : Call → Bool
  | Call.AddressableFromDestinationV1 _ => true
  | _ => false

/-! ### A scripted cluster

A cluster that answers from a script: the listers return fixed lists, the resolver a fixed
answer, and each kind of write a fixed error. -/

/-- The script of a scripted cluster. -/
structure Script where
  rules : List monitoringv1.PrometheusRule
  amcs : List monitoringv1alpha1.AlertmanagerConfig
  listErr : Option String
  sink : Option duckv1.Addressable × Option String
  createErr : Option String
  updateErr : Option String
  deleteErr : Option String
deriving DecidableEq, Repr

/-- The reconciler wired to a scripted cluster; the cluster has no state of its own. -/
def scripted (s : Script) : Reconciler Unit :=
  { resolver := fun _ _ _ => s.sink,
    promClient :=
      { CreatePrometheusRule := fun _ _ _ => (s.createErr, ()),
        UpdatePrometheusRule := fun _ _ _ => (s.updateErr, ()),
        DeletePrometheusRule := fun _ _ _ _ => (s.deleteErr, ()),
        CreateAlertmanagerConfig := fun _ _ _ => (s.createErr, ()),
        UpdateAlertmanagerConfig := fun _ _ _ => (s.updateErr, ()),
        DeleteAlertmanagerConfig := fun _ _ _ _ => (s.deleteErr, ()) },
    promRuleLister := fun _ _ _ => (s.rules, s.listErr),
    alertManagerConfigLister := fun _ _ _ => (s.amcs, s.listErr) }

/-- One alerting rule, without labels. -/
def downRule : monitoringv1.Rule :=
  { Record := "", Alert := "Down", Expr := "up == 0", For := none, Labels := none,
    Annotations := none }

/-- A rule specification with one group holding one rule. -/
def alphaRuleSpec : PrometheusRuleSpec :=
  { Rule := { Groups := [
      { Name := "g", Interval := none, Rules := [downRule], PartialResponseStrategy := "",
        Limit := none }] },
    GroupWait := "30s", GroupInterval := "", RepeatInterval := "", GroupBy := [],
    MuteTimeIntervals := [], ActiveTimeIntervals := [] }

/-- A source named `alpha` in namespace `ns`, with an empty label map, one rule group and a
sink reference. -/
def alpha : PrometheusRuleSource :=
  { ObjectMeta :=
      { Name := "alpha", Namespace := "ns", UID := "uid-alpha", ResourceVersion := "1",
        Generation := 1, CreationTimestamp := { Seconds := 63800000000 },
        Labels := some [], Annotations := none, OwnerReferences := [] },
    Spec :=
      { Rule := alphaRuleSpec,
        Event := { Source := "s", Type_ := "t", Subject := "", DataSchema := "", Data := none },
        SourceSpec := { Sink := { Ref := none, URI := some { Scheme := "http", Host := "sink.example", Path := "/x" } } },
        Reply := none },
    Status := { SourceStatus := { Status := { ObservedGeneration := 0, Conditions := [] }, SinkURI := none } } }

/-- The address `http://sink.example/x`. -/
def sinkAddress : duckv1.Addressable :=
  { Name := none, URL := some { Scheme := "http", Host := "sink.example", Path := "/x" },
    CACerts := none, Audience := none }

/-- A stored rule of another name and body, carrying the given UID. -/
def strayRule (name uid : String) : monitoringv1.PrometheusRule :=
  { ObjectMeta :=
      { Name := name, Namespace := "ns", UID := uid, ResourceVersion := "7",
        Generation := 1, CreationTimestamp := { Seconds := 63800000000 },
        Labels := some [(SourceNameLabel, "alpha"), (SourceSelector, "true")],
        Annotations := none, OwnerReferences := [] },
    Spec := { Groups := [] } }

/-- A stored routing config of another name and body, carrying the given UID. -/
def strayAmc (name uid : String) : monitoringv1alpha1.AlertmanagerConfig :=
  { ObjectMeta :=
      { Name := name, Namespace := "ns", UID := uid, ResourceVersion := "7",
        Generation := 1, CreationTimestamp := { Seconds := 63800000000 },
        Labels := some [(SourceNameLabel, "alpha"), (SourceSelector, "true")],
        Annotations := none, OwnerReferences := [] },
    Spec := { Route := none, Receivers := [], InhibitRules := [] } }

/-- A script in which everything succeeds: two stored rules, two stored routing configs and
a resolved sink. -/
def happyScript : Script :=
  { rules := [strayRule "r0" "u0", strayRule "r1" "u1"],
    amcs := [strayAmc "a0" "v0", strayAmc "a1" "v1"],
    listErr := none, sink := (some sinkAddress, none),
    createErr := none, updateErr := none, deleteErr := none }

end prometheusrulesource

namespace prometheusrulesource

open sources

/-- Whether a call goes to the rule kind: list, create, update or delete of a
`PrometheusRule`. -/
def Call.isRule : Call → Bool
  | Call.ListPrometheusRules _ _ => true
  | Call.CreatePrometheusRule _ _ => true
  | Call.UpdatePrometheusRule _ _ => true
  | Call.DeletePrometheusRule _ _ _ => true
  | _ => false

/-- A rule listed for `alpha` that satisfies the desired rule: the desired rule with a UID
and a resource version, at generation 0 and without creation timestamp, as a lister over a
store that sets neither returns it. -/
def storedAlphaRule : monitoringv1.PrometheusRule :=
  { desiredPrometheusRule alpha [] with
    ObjectMeta := { (desiredPrometheusRule alpha []).ObjectMeta with UID := "u0", ResourceVersion := "7" } }

/-- A routing config listed for `alpha` that satisfies the desired one for the address
`sinkAddress`: the desired config with a UID and a resource version, at generation 0 and
without creation timestamp. -/
def storedAlphaAmc : monitoringv1alpha1.AlertmanagerConfig :=
  { desiredAlertmanagerConfig alpha [] sinkAddress with
    ObjectMeta := { (desiredAlertmanagerConfig alpha [] sinkAddress).ObjectMeta with UID := "v0", ResourceVersion := "7" } }

/-- A script in which each kind has an in-sync first child and one surplus child, and every
deletion is refused. -/
def refusedDeleteScript : Script :=
  { rules := [storedAlphaRule, strayRule "r1" "u1"],
    amcs := [storedAlphaAmc, strayAmc "a1" "v1"],
    listErr := none, sink := (some sinkAddress, none),
    createErr := none, updateErr := none,
    deleteErr := some "Precondition failed: UID in precondition: u1, UID in object meta: u9" }

/-- A script with no stored children in which the resolver fails with the given text. -/
def unresolvedScript (msg : String) : Script :=
  { rules := [], amcs := [], listErr := none, sink := (none, some msg),
    createErr := none, updateErr := none, deleteErr := none }

/-- A script with no stored children in which the resolver returns an addressable without
an address, and no error. -/
def emptyAddressScript : Script :=
  { rules := [], amcs := [], listErr := none,
    sink := (some { Name := none, URL := none, CACerts := none, Audience := none }, none),
    createErr := none, updateErr := none, deleteErr := none }

/-- The trace `after` is the trace `before` followed by calls that all satisfy `P`. -/
def Extends (P : Call → Bool) (before after : List Call) : Prop :=
  ∃ added, after = before ++ added ∧ ∀ c ∈ added, P c = true

/-- The conditions of a status carry each condition type at most once. -/
def wellFormedConditions (conds : List apis.Condition) : Prop :=
  (conds.map (fun c => c.Type_)).Nodup

/-- Well-formedness of conditions can be checked. -/
instance (conds : List apis.Condition) : Decidable (wellFormedConditions conds) :=
  inferInstanceAs (Decidable (List.Nodup (conds.map (fun (c : apis.Condition) => c.Type_))))

end prometheusrulesource

namespace prometheusrulesource

open sources

/-- The webhook addresses a routing config delivers to, receiver by receiver. -/
def webhookURLs (amc : monitoringv1alpha1.AlertmanagerConfig) : List (List (Option String)) :=
  amc.Spec.Receivers.map (fun rc => rc.WebhookConfigs.map (fun wc => wc.URL))

/-- An addressable without an address. -/
def emptyAddress : duckv1.Addressable :=
  { Name := none, URL := none, CACerts := none, Audience := none }

end prometheusrulesource

/-! ## A cluster that applies the calls it receives

An object store in the manner of the Kubernetes API server for custom resources, one list of
objects per kind in store order. Every write that changes the store takes the next revision
of the store, which becomes the resource version of the object written. A create is refused
when the name is taken or a resource version is sent; the object is stored with a fresh UID,
generation 1 and the time of the cluster as creation timestamp. An update is refused when no
object has that namespace and name, when no resource version is sent, when the resource
version sent is not the stored one, or when a UID is sent that is not the stored one; the
object is stored under the stored UID and creation timestamp, with the stored generation,
raised by one when anything outside the metadata changed; an update that changes nothing
writes nothing. A delete removes the object of that namespace and name when the UID
precondition holds. The listers read the same store: the objects of a namespace that carry
the label of the filtered informer and match the selector. The resolver answer and the time
are part of the cluster and do not change. -/

namespace apiserver

open sources prometheusrulesource

/-- The state of the cluster: the stored objects of both kinds, the answer of the resolver,
the revision of the store and the time. -/
structure Cluster where
  rules : List monitoringv1.PrometheusRule
  amcs : List monitoringv1alpha1.AlertmanagerConfig
  sink : Option duckv1.Addressable × Option String
  revision : Nat
  now : metav1.Time
deriving DecidableEq, Repr

/-- The resource name of the rule kind in error texts. -/
def ruleResource : String := "prometheusrules.monitoring.coreos.com"

/-- The resource name of the routing kind in error texts. -/
def amcResource : String := "alertmanagerconfigs.monitoring.coreos.com"

/-- The object is the one of that namespace and name. -/
def hasKey (m : metav1.ObjectMeta) (ns name : String) : Bool :=
  decide (m.Namespace = ns) && decide (m.Name = name)

/-- The object is in the namespace, carries the label the informers are filtered on, and
matches every label of the selector. -/
def selected (m : metav1.ObjectMeta) (ns : String) (selector : List (String × String)) : Bool :=
  decide (m.Namespace = ns) && (gomap.lookup (m.Labels.getD []) SourceSelector).isSome
    && selector.all (fun kv => decide (gomap.lookup (m.Labels.getD []) kv.1 = some kv.2))

/-- What a lister returns. -/
def list {α : Type} (getMeta : α → metav1.ObjectMeta) (objs : List α) (ns : String)
    (selector : List (String × String)) : List α :=
  objs.filter (fun x => selected (getMeta x) ns selector)

/-- Applying a create at store revision `revision` and time `now`. -/
def create {α : Type} (getMeta : α → metav1.ObjectMeta) (setMeta : α → metav1.ObjectMeta → α)
    (resource : String) (objs : List α) (revision : Nat) (now : metav1.Time) (ns : String)
    (o : α) : Option String × List α :=
  if (getMeta o).Namespace ≠ ns then
    (some "the namespace of the provided object does not match the namespace sent on the request", objs)
  else if (getMeta o).ResourceVersion ≠ "" then
    (some "resourceVersion should not be set on objects to be created", objs)
  else if objs.any (fun x => hasKey (getMeta x) ns (getMeta o).Name) then
    (some (resource ++ " \"" ++ (getMeta o).Name ++ "\" already exists"), objs)
  else
    (none, objs ++ [setMeta o
      { getMeta o with
        UID := "uid-" ++ toString (revision + 1),
        ResourceVersion := toString (revision + 1),
        Generation := 1,
        CreationTimestamp := now }])

/-- Applying an update at store revision `revision`. -/
def update {α : Type} [DecidableEq α] (getMeta : α → metav1.ObjectMeta)
    (setMeta : α → metav1.ObjectMeta → α) (resource : String) (objs : List α) (revision : Nat)
    (ns : String) (o : α) : Option String × List α :=
  if (getMeta o).Namespace ≠ ns then
    (some "the namespace of the provided object does not match the namespace sent on the request", objs)
  else
    match objs.find? (fun x => hasKey (getMeta x) ns (getMeta o).Name) with
    | none => (some (resource ++ " \"" ++ (getMeta o).Name ++ "\" not found"), objs)
    | some old =>
      if (getMeta o).ResourceVersion = "" then
        (some (resource ++ " \"" ++ (getMeta o).Name ++ "\" is invalid: "
          ++ "metadata.resourceVersion: Invalid value: 0x0: must be specified for an update"),
          objs)
      else if (getMeta o).ResourceVersion ≠ (getMeta old).ResourceVersion then
        (some ("Operation cannot be fulfilled on " ++ resource ++ " \"" ++ (getMeta o).Name
          ++ "\": the object has been modified; please apply your changes to the latest "
          ++ "version and try again"), objs)
      else if (getMeta o).UID ≠ "" ∧ (getMeta o).UID ≠ (getMeta old).UID then
        (some ("Operation cannot be fulfilled on " ++ resource ++ " \"" ++ (getMeta o).Name
          ++ "\": Precondition failed: UID in precondition: " ++ (getMeta o).UID
          ++ ", UID in object meta: " ++ (getMeta old).UID), objs)
      else
        let kept : metav1.ObjectMeta :=
          { getMeta o with
            UID := (getMeta old).UID,
            Generation :=
              if setMeta o (getMeta old) = old then (getMeta old).Generation
              else (getMeta old).Generation + 1,
            CreationTimestamp := (getMeta old).CreationTimestamp }
        if setMeta o kept = old then (none, objs)
        else
          (none, objs.map (fun x =>
            if hasKey (getMeta x) ns (getMeta o).Name then
              setMeta o { kept with ResourceVersion := toString (revision + 1) }
            else x))

/-- Applying a delete with a UID precondition. -/
def delete {α : Type} (getMeta : α → metav1.ObjectMeta) (resource : String) (objs : List α)
    (ns name uid : String) : Option String × List α :=
  match objs.find? (fun x => hasKey (getMeta x) ns name) with
  | none => (some (resource ++ " \"" ++ name ++ "\" not found"), objs)
  | some old =>
    if (getMeta old).UID ≠ uid then
      (some ("Operation cannot be fulfilled on " ++ resource ++ " \"" ++ name
        ++ "\": Precondition failed: UID in precondition: " ++ uid
        ++ ", UID in object meta: " ++ (getMeta old).UID), objs)
    else (none, objs.filter (fun x => !hasKey (getMeta x) ns name))

/-- Replacing the metadata of a rule. -/
def setRuleMeta (o : monitoringv1.PrometheusRule) (m : metav1.ObjectMeta) :
    monitoringv1.PrometheusRule :=
  { o with ObjectMeta := m }

/-- Replacing the metadata of a routing config. -/
def setAmcMeta (o : monitoringv1alpha1.AlertmanagerConfig) (m : metav1.ObjectMeta) :
    monitoringv1alpha1.AlertmanagerConfig :=
  { o with ObjectMeta := m }

/-- The cluster after a write on the rule kind: the store takes the next revision when the
write changed it. -/
def Cluster.withRules (s : Cluster) (rules : List monitoringv1.PrometheusRule) : Cluster :=
  { s with rules := rules, revision := if rules = s.rules then s.revision else s.revision + 1 }

/-- The cluster after a write on the routing kind. -/
def Cluster.withAmcs (s : Cluster) (amcs : List monitoringv1alpha1.AlertmanagerConfig) :
    Cluster :=
  { s with amcs := amcs, revision := if amcs = s.amcs then s.revision else s.revision + 1 }

/-- The typed clients of the cluster. -/
def client : PromClient Cluster :=
  { CreatePrometheusRule := fun s ns o =>
      ((create (fun x => x.ObjectMeta) setRuleMeta ruleResource s.rules s.revision s.now ns o).1,
        s.withRules
          (create (fun x => x.ObjectMeta) setRuleMeta ruleResource s.rules s.revision s.now ns o).2),
    UpdatePrometheusRule := fun s ns o =>
      ((update (fun x => x.ObjectMeta) setRuleMeta ruleResource s.rules s.revision ns o).1,
        s.withRules
          (update (fun x => x.ObjectMeta) setRuleMeta ruleResource s.rules s.revision ns o).2),
    DeletePrometheusRule := fun s ns name uid =>
      ((delete (fun x => x.ObjectMeta) ruleResource s.rules ns name uid).1,
        s.withRules (delete (fun x => x.ObjectMeta) ruleResource s.rules ns name uid).2),
    CreateAlertmanagerConfig := fun s ns o =>
      ((create (fun x => x.ObjectMeta) setAmcMeta amcResource s.amcs s.revision s.now ns o).1,
        s.withAmcs
          (create (fun x => x.ObjectMeta) setAmcMeta amcResource s.amcs s.revision s.now ns o).2),
    UpdateAlertmanagerConfig := fun s ns o =>
      ((update (fun x => x.ObjectMeta) setAmcMeta amcResource s.amcs s.revision ns o).1,
        s.withAmcs
          (update (fun x => x.ObjectMeta) setAmcMeta amcResource s.amcs s.revision ns o).2),
    DeleteAlertmanagerConfig := fun s ns name uid =>
      ((delete (fun x => x.ObjectMeta) amcResource s.amcs ns name uid).1,
        s.withAmcs (delete (fun x => x.ObjectMeta) amcResource s.amcs ns name uid).2) }

/-- The reconciler wired to the cluster. -/
def reconciler : Reconciler Cluster :=
  { resolver := fun s _ _ => s.sink,
    promClient := client,
    promRuleLister := fun s ns selector => (list (fun x => x.ObjectMeta) s.rules ns selector, none),
    alertManagerConfigLister := fun s ns selector =>
      (list (fun x => x.ObjectMeta) s.amcs ns selector, none) }

/-- The namespace and name of every stored object, kind by kind: in a well-formed store no
two objects of a kind share them. -/
def uniqueKeys {α : Type} (getMeta : α → metav1.ObjectMeta) (objs : List α) : Prop :=
  (objs.map (fun x => ((getMeta x).Namespace, (getMeta x).Name))).Nodup

/-- Uniqueness of keys can be checked. -/
instance {α : Type} (getMeta : α → metav1.ObjectMeta) (objs : List α) :
    Decidable (uniqueKeys getMeta objs) :=
  inferInstanceAs (Decidable (List.Nodup
    (objs.map (fun x => ((getMeta x).Namespace, (getMeta x).Name)))))

/-- The label entries of a source after `SetDefaults`. -/
def defaultedLabels (src : PrometheusRuleSource) : List (String × String) :=
  gomap.insert (src.ObjectMeta.Labels.getD []) SourceNameLabel src.ObjectMeta.Name

/-- The metadata of a child as the store holds it for `alpha`: created at some earlier time,
at generation 1, carrying the name label and the selector label. -/
def storedMeta (name uid resourceVersion : String) : metav1.ObjectMeta :=
  { Name := name, Namespace := "ns", UID := uid, ResourceVersion := resourceVersion,
    Generation := 1, CreationTimestamp := { Seconds := 63800000000 },
    Labels := some [(SourceNameLabel, "alpha"), (SourceSelector, "true")],
    Annotations := none, OwnerReferences := [] }

/-- A stored rule for `alpha` with a body other than the desired one: no groups. -/
def storedRule (name uid resourceVersion : String) : monitoringv1.PrometheusRule :=
  { ObjectMeta := storedMeta name uid resourceVersion, Spec := { Groups := [] } }

/-- A stored routing config for `alpha` with a body other than the desired one: no route and
no receiver. -/
def storedAmc (name uid resourceVersion : String) : monitoringv1alpha1.AlertmanagerConfig :=
  { ObjectMeta := storedMeta name uid resourceVersion,
    Spec := { Route := none, Receivers := [], InhibitRules := [] } }

/-- A cluster holding two children of each kind for `alpha`, each written at a revision of
its own, all with bodies other than the desired one; the first listed child of each kind
bears another name than the derived one, the second bears the derived name `alphakne`. -/
def strayFirst : Cluster :=
  { rules := [storedRule "r0" "u0" "5", storedRule "alphakne" "u1" "6"],
    amcs := [storedAmc "a0" "v0" "7", storedAmc "alphakne" "v1" "8"],
    sink := (some sinkAddress, none),
    revision := 8,
    now := { Seconds := 63800000600 } }

/-- A cluster without children, in which the sink resolves. -/
def fresh : Cluster :=
  { rules := [], amcs := [], sink := (some sinkAddress, none), revision := 0,
    now := { Seconds := 63800000000 } }

end apiserver


/-! ## Validation of the event specification -/

namespace apis

/-- Of `apis.FieldError` the field paths and the details; the message of `ErrInvalidValue`
prints the value, here a pointer, and is left out. -/
structure FieldError where
  Paths : List String
  Details : String
deriving DecidableEq, Repr

/-- The function `apis.ErrInvalidValue(value, fieldPath, details)`. -/
def ErrInvalidValue (fieldPath details : String) : FieldError :=
  { Paths := [fieldPath], Details := details }

end apis

namespace sources

/-- The cloudevent assembled in `PrometheusRuleEventSpec.Validate`. -/
structure CloudEvent where
  SpecVersion : String
  ID : String
  Type_ : String
  Source : String
  Subject : String
  DataSchema : String
  DataContentType : String
  DataEncoded : List Nat
  DataBase64 : Bool
deriving DecidableEq, Repr

/-- How a call of `Validate` ends: it returns a field error, nil or not, or it panics. -/
inductive ValidateResult where
  | returned (errs : Option apis.FieldError)
  | panicked (msg : String)
deriving DecidableEq, Repr

/-- The method `PrometheusRuleEventSpec.Validate`. `id` is the fresh UUID the method draws,
`validate` the method `Validate` of the cloudevents library, which returns an error or nil.
The assignment `e.DataEncoded = s.Data.Raw` reads through the pointer `s.Data`. -/
def PrometheusRuleEventSpec.Validate (validate : CloudEvent → Option String) (id : String)
    (s : PrometheusRuleEventSpec) : ValidateResult :=
  match s.Data with
  | none =>
    ValidateResult.panicked "runtime error: invalid memory address or nil pointer dereference"
  | some raw =>
    let e : CloudEvent :=
      { SpecVersion := "1.0", ID := id, Type_ := s.Type_, Source := s.Source,
        Subject := s.Subject, DataSchema := s.DataSchema,
        DataContentType := "application/json", DataEncoded := raw, DataBase64 := false }
    match validate e with
    | some err => ValidateResult.returned (some (apis.ErrInvalidValue "" err))
    | none => ValidateResult.returned none

end sources

/-! ## Properties of the desired children -/

namespace prometheusrulesource

open sources

/-- An equality matcher of Alertmanager holds of a label set when the label has the value of
the matcher; a label that is not set counts as empty. -/
def matcherHolds (m : monitoringv1alpha1.Matcher) (labels : List (String × String)) : Bool :=
  decide ((gomap.lookup labels m.Name).getD "" = m.Value)

/-- All matchers of the route of a routing config hold of a label set. -/
def matchersHold (amc : monitoringv1alpha1.AlertmanagerConfig)
    (labels : List (String × String)) : Bool :=
  match amc.Spec.Route with
  | none => true
  | some route => route.Matchers.all (fun m => matcherHolds m labels)

/-- The labels `SetDefaults` leaves on a rule entry of a source that had the labels `own`. -/
def injectedLabels (src : PrometheusRuleSource) (own : List (String × String)) :
    List (String × String) :=
  gomap.insert (gomap.insert own SourceNameLabel src.ObjectMeta.Name)
    SourceNamespaceLabel src.ObjectMeta.Namespace

/-- The grouping key of the route of a routing config. -/
def routeGroupBy (amc : monitoringv1alpha1.AlertmanagerConfig) : List String :=
  match amc.Spec.Route with
  | none => []
  | some route => route.GroupBy

/-- The rule `r'` is the rule `r` with the name label set to `name` and the namespace label
set to `ns`: every other label and every other field is as in `r`. -/
def injected (name ns : String) (r r' : monitoringv1.Rule) : Prop :=
  r'.Record = r.Record ∧ r'.Alert = r.Alert ∧ r'.Expr = r.Expr ∧ r'.For = r.For
    ∧ r'.Annotations = r.Annotations
    ∧ ∃ l, r'.Labels = some l
        ∧ gomap.lookup l SourceNameLabel = some name
        ∧ gomap.lookup l SourceNamespaceLabel = some ns
        ∧ ∀ k, k ≠ SourceNameLabel → k ≠ SourceNamespaceLabel →
            gomap.lookup l k = gomap.lookup (r.Labels.getD []) k

/-- The group `g'` is the group `g` with the labels injected into each rule, rule by rule in
order; every other field is as in `g`. -/
def injectedGroup (name ns : String) (g g' : monitoringv1.RuleGroup) : Prop :=
  g'.Name = g.Name ∧ g'.Interval = g.Interval
    ∧ g'.PartialResponseStrategy = g.PartialResponseStrategy ∧ g'.Limit = g.Limit
    ∧ List.Forall₂ (injected name ns) g.Rules g'.Rules

/-- The source `alpha` with the name label as its only user-given grouping label. -/
def alphaGroupedByName : PrometheusRuleSource :=
  { alpha with Spec := { alpha.Spec with Rule := { alpha.Spec.Rule with GroupBy := [SourceNameLabel] } } }

/-- An event specification whose optional payload is omitted. -/
def eventWithoutData : PrometheusRuleEventSpec :=
  { Source := "https://prometheus.example/alerts", Type_ := "dev.knative.prometheus.alert",
    Subject := "", DataSchema := "", Data := none }

end prometheusrulesource

/-! ## Theorems -/

section Theorems

open prometheusrulesource sources

/-- With deletions succeeding, `deletePrometheusRules` issues one delete call per rule, in
order, each naming the rule and carrying its UID. -/
theorem deletePrometheusRules_calls {σ : Type} (r : Reconciler σ)
    (hdel : ∀ s ns n u, (r.promClient.DeletePrometheusRule s ns n u).1 = none)
    (l : List monitoringv1.PrometheusRule) (w : World σ) :
    (r.deletePrometheusRules w l).2.calls
      = w.calls ++ l.map (fun c => ruleCall (design.Action.Delete c)) := by
  induction l generalizing w with
  | nil => simp [Reconciler.deletePrometheusRules]
  | cons c rest ih =>
    simp only [Reconciler.deletePrometheusRules, hdel]
    rw [ih]
    simp [World.call, World.Eventf, ruleCall]

/-- With deletions succeeding, `deleteAlertManagerConfig` issues one delete call per config,
in order, each naming the config and carrying its UID. -/
theorem deleteAlertManagerConfig_calls {σ : Type} (r : Reconciler σ)
    (hdel : ∀ s ns n u, (r.promClient.DeleteAlertmanagerConfig s ns n u).1 = none)
    (l : List monitoringv1alpha1.AlertmanagerConfig) (w : World σ) :
    (r.deleteAlertManagerConfig w l).2.calls
      = w.calls ++ l.map (fun c => amcCall (design.Action.Delete c)) := by
  induction l generalizing w with
  | nil => simp [Reconciler.deleteAlertManagerConfig]
  | cons c rest ih =>
    simp only [Reconciler.deleteAlertManagerConfig, hdel]
    rw [ih]
    simp [World.call, World.Eventf, amcCall]

/-- The desired routing config does not depend on the status of the source. -/
theorem desiredAlertmanagerConfig_status (src : PrometheusRuleSource)
    (st : PrometheusRuleSourceStatus) (labels : List (String × String))
    (addr : duckv1.Addressable) :
    desiredAlertmanagerConfig { src with Status := st } labels addr
      = desiredAlertmanagerConfig src labels addr := rfl

/-- C1 (rule and routing convergence follow the reference algorithm). With every create,
update and delete succeeding: after listing `owned`, `reconcilePrometheusRule` issues exactly
the calls of the design's `Converge` on the desired rule and `owned`; after a successful sink
resolution and listing `ownedAmc`, `reconcileAlertManagerConfig` issues exactly the calls of
`Converge` on the desired routing config and `ownedAmc`: one create for an empty list,
otherwise no create, an update stamped with the resource version of the first element
exactly when the desired body is not derivative-equal to it, and one delete per element of
the tail. -/
theorem C1_convergence_follows_reference {σ : Type} (r : Reconciler σ) (w wr : World σ)
    (labels labelsR : List (String × String))
    (owned : List monitoringv1.PrometheusRule)
    (ownedAmc : List monitoringv1alpha1.AlertmanagerConfig) (addr : duckv1.Addressable)
    (hok : r.writesSucceed)
    (hl : w.src.ObjectMeta.Labels = some labels)
    (hlist : r.promRuleLister w.cluster w.src.ObjectMeta.Namespace
      [(SourceNameLabel, w.src.ObjectMeta.Name)] = (owned, none))
    (hlr : wr.src.ObjectMeta.Labels = some labelsR)
    (hres : r.resolver wr.cluster wr.src.Spec.SourceSpec.Sink wr.src = (some addr, none))
    (hlistr : r.alertManagerConfigLister wr.cluster wr.src.ObjectMeta.Namespace
      [(SourceNameLabel, wr.src.ObjectMeta.Name)] = (ownedAmc, none)) :
    (r.reconcilePrometheusRule w).2.calls
        = w.calls ++ [Call.ListPrometheusRules w.src.ObjectMeta.Namespace
            [(SourceNameLabel, w.src.ObjectMeta.Name)]]
          ++ (design.Converge equality.DeepDerivativePrometheusRule stampPrometheusRule
                (desiredPrometheusRule w.src labels) owned).map ruleCall
    ∧ (r.reconcileAlertManagerConfig wr).2.calls
        = wr.calls ++ [Call.AddressableFromDestinationV1 wr.src.Spec.SourceSpec.Sink,
            Call.ListAlertmanagerConfigs wr.src.ObjectMeta.Namespace
              [(SourceNameLabel, wr.src.ObjectMeta.Name)]]
          ++ (design.Converge equality.DeepDerivativeAlertmanagerConfig stampAlertmanagerConfig
                (desiredAlertmanagerConfig wr.src labelsR addr) ownedAmc).map amcCall := by
  obtain ⟨hc, hu, hd, hca, hua, hda⟩ := hok
  constructor
  · cases owned with
    | nil =>
      simp [Reconciler.reconcilePrometheusRule, hl, World.call, hlist,
        Reconciler.createPrometheusRule, hc, World.Eventf, design.Converge, ruleCall]
    | cons got rest =>
      by_cases hdd : equality.DeepDerivativePrometheusRule (desiredPrometheusRule w.src labels) got
      · simp [Reconciler.reconcilePrometheusRule, hl, World.call, hlist, hdd,
          deletePrometheusRules_calls r hd, design.Converge]
      · simp [Reconciler.reconcilePrometheusRule, hl, World.call, hlist, hdd,
          deletePrometheusRules_calls r hd, design.Converge, Reconciler.updatePrometheusRule, hu,
          World.Eventf, ruleCall, stampPrometheusRule]
  · cases ownedAmc with
    | nil =>
      simp [Reconciler.reconcileAlertManagerConfig, hlr, hres, World.call, hlistr,
        Reconciler.createAlertManagerConfig, hca, World.Eventf, design.Converge, amcCall,
        desiredAlertmanagerConfig_status]
    | cons got rest =>
      by_cases hdd : equality.DeepDerivativeAlertmanagerConfig
          (desiredAlertmanagerConfig wr.src labelsR addr) got
      · simp [Reconciler.reconcileAlertManagerConfig, hlr, hres, World.call, hlistr, hdd,
          deleteAlertManagerConfig_calls r hda, design.Converge,
          desiredAlertmanagerConfig_status]
      · simp [Reconciler.reconcileAlertManagerConfig, hlr, hres, World.call, hlistr, hdd,
          deleteAlertManagerConfig_calls r hda, design.Converge,
          Reconciler.updateAlertManagerConfig, hua, World.Eventf, amcCall,
          stampAlertmanagerConfig, desiredAlertmanagerConfig_status]

/-- C1 at a concrete pass: the source `alpha` against two stored rules and two stored routing
configs of other bodies gives, for each kind, one list call, one stamped update and one
delete carrying the UID of the second child. -/
theorem C1_convergence_follows_reference_witness :
    ((scripted happyScript).reconcilePrometheusRule (World.start alpha ())).2.calls
        = [Call.ListPrometheusRules "ns" [(SourceNameLabel, "alpha")],
           Call.UpdatePrometheusRule "ns"
             (stampPrometheusRule (desiredPrometheusRule alpha []) (strayRule "r0" "u0")),
           Call.DeletePrometheusRule "ns" "r1" "u1"]
    ∧ ((scripted happyScript).reconcileAlertManagerConfig (World.start alpha ())).2.calls
        = [Call.AddressableFromDestinationV1 alpha.Spec.SourceSpec.Sink,
           Call.ListAlertmanagerConfigs "ns" [(SourceNameLabel, "alpha")],
           Call.UpdateAlertmanagerConfig "ns"
             (stampAlertmanagerConfig (desiredAlertmanagerConfig alpha [] sinkAddress)
               (strayAmc "a0" "v0")),
           Call.DeleteAlertmanagerConfig "ns" "a1" "v1"] := by
  have h := C1_convergence_follows_reference (scripted happyScript) (World.start alpha ())
    (World.start alpha ()) [] [] happyScript.rules happyScript.amcs sinkAddress
    ⟨fun _ _ _ => rfl, fun _ _ _ => rfl, fun _ _ _ _ => rfl, fun _ _ _ => rfl,
      fun _ _ _ => rfl, fun _ _ _ _ => rfl⟩ rfl rfl rfl rfl rfl
  exact ⟨h.1.trans (by decide), h.2.trans (by decide)⟩

/-- C3 (a failed deletion of a surplus child is surfaced): evaluated at the pass of `alpha`
against a cluster that holds, for each kind, an in-sync first child and one surplus child,
and refuses every deletion. Both delete calls are issued and fail, and `ReconcileKind`
nevertheless returns nil: the error of the deferred deletion is dropped. -/
theorem C3_failed_deletion_is_dropped :
    ((scripted refusedDeleteScript).promClient.DeletePrometheusRule () "ns" "r1" "u1").1 ≠ none
    ∧ ((scripted refusedDeleteScript).reconcilePrometheusRule (World.start alpha ())).1
        = Outcome.returned none
    ∧ ((scripted refusedDeleteScript).ReconcileKind (World.start alpha ())).1
        = Outcome.returned none
    ∧ ((scripted refusedDeleteScript).ReconcileKind (World.start alpha ())).2.calls
        = [Call.ListPrometheusRules "ns" [(SourceNameLabel, "alpha")],
           Call.DeletePrometheusRule "ns" "r1" "u1",
           Call.AddressableFromDestinationV1 alpha.Spec.SourceSpec.Sink,
           Call.ListAlertmanagerConfigs "ns" [(SourceNameLabel, "alpha")],
           Call.DeleteAlertmanagerConfig "ns" "a1" "v1"] := by
  decide

/-- A trace extends itself. -/
theorem trace_refl (P : Call → Bool) (t : List Call) : Extends P t t :=
  ⟨[], by simp, by simp⟩

/-- Extensions compose. -/
theorem trace_trans {P : Call → Bool} {a b c : List Call} (h1 : Extends P a b)
    (h2 : Extends P b c) : Extends P a c := by
  obtain ⟨x, rfl, hx⟩ := h1
  obtain ⟨y, rfl, hy⟩ := h2
  refine ⟨x ++ y, by simp, ?_⟩
  intro c hc
  rcases List.mem_append.mp hc with h | h
  · exact hx c h
  · exact hy c h

/-- Issuing one call that satisfies `P` extends the trace. -/
theorem trace_call {σ : Type} (P : Call → Bool) (w : World σ) (c : Call) (hc : P c = true) :
    Extends P w.calls (w.call c).calls :=
  ⟨[c], rfl, by simpa using hc⟩

/-- Appending one call that satisfies `P` extends the trace. -/
theorem trace_snoc {P : Call → Bool} {a b : List Call} {c : Call} (h : Extends P a b)
    (hc : P c = true) : Extends P a (b ++ [c]) :=
  trace_trans h ⟨[c], rfl, by simpa using hc⟩

/-- The calls and the source after `createPrometheusRule`. -/
theorem createPrometheusRule_world {σ : Type} (r : Reconciler σ) (w : World σ)
    (rule : monitoringv1.PrometheusRule) :
    (r.createPrometheusRule w rule).2.calls
        = w.calls ++ [Call.CreatePrometheusRule rule.ObjectMeta.Namespace rule]
      ∧ (r.createPrometheusRule w rule).2.src = w.src := by
  simp only [Reconciler.createPrometheusRule]
  cases (r.promClient.CreatePrometheusRule w.cluster rule.ObjectMeta.Namespace rule).1 <;> exact ⟨rfl, rfl⟩

/-- The calls and the source after `updatePrometheusRule`. -/
theorem updatePrometheusRule_world {σ : Type} (r : Reconciler σ) (w : World σ)
    (rule : monitoringv1.PrometheusRule) :
    (r.updatePrometheusRule w rule).2.calls
        = w.calls ++ [Call.UpdatePrometheusRule rule.ObjectMeta.Namespace rule]
      ∧ (r.updatePrometheusRule w rule).2.src = w.src := by
  simp only [Reconciler.updatePrometheusRule]
  cases (r.promClient.UpdatePrometheusRule w.cluster rule.ObjectMeta.Namespace rule).1 <;> exact ⟨rfl, rfl⟩

/-- The calls and the source after `createAlertManagerConfig`. -/
theorem createAlertManagerConfig_world {σ : Type} (r : Reconciler σ) (w : World σ)
    (amc : monitoringv1alpha1.AlertmanagerConfig) :
    (r.createAlertManagerConfig w amc).2.calls
        = w.calls ++ [Call.CreateAlertmanagerConfig amc.ObjectMeta.Namespace amc]
      ∧ (r.createAlertManagerConfig w amc).2.src = w.src := by
  simp only [Reconciler.createAlertManagerConfig]
  cases (r.promClient.CreateAlertmanagerConfig w.cluster amc.ObjectMeta.Namespace amc).1 <;> exact ⟨rfl, rfl⟩

/-- The calls and the source after `updateAlertManagerConfig`. -/
theorem updateAlertManagerConfig_world {σ : Type} (r : Reconciler σ) (w : World σ)
    (amc : monitoringv1alpha1.AlertmanagerConfig) :
    (r.updateAlertManagerConfig w amc).2.calls
        = w.calls ++ [Call.UpdateAlertmanagerConfig amc.ObjectMeta.Namespace amc]
      ∧ (r.updateAlertManagerConfig w amc).2.src = w.src := by
  simp only [Reconciler.updateAlertManagerConfig]
  cases (r.promClient.UpdateAlertmanagerConfig w.cluster amc.ObjectMeta.Namespace amc).1 <;> exact ⟨rfl, rfl⟩

/-- The deletion loop for rules only adds calls to the rule kind, and leaves the source
untouched. -/
theorem deletePrometheusRules_trace {σ : Type} (r : Reconciler σ)
    (l : List monitoringv1.PrometheusRule) (w : World σ) :
    Extends Call.isRule w.calls (r.deletePrometheusRules w l).2.calls
      ∧ (r.deletePrometheusRules w l).2.src = w.src := by
  induction l generalizing w with
  | nil => exact ⟨trace_refl _ _, rfl⟩
  | cons c rest ih =>
    simp only [Reconciler.deletePrometheusRules]
    split
    · exact ⟨trace_call _ w _ (by rfl), rfl⟩
    · refine ⟨trace_trans (trace_call _ w _ (by rfl)) (ih _).1, ?_⟩
      rw [(ih _).2]; rfl

/-- The deletion loop for routing configs only adds calls to the routing kind, and leaves the
source untouched. -/
theorem deleteAlertManagerConfig_trace {σ : Type} (r : Reconciler σ)
    (l : List monitoringv1alpha1.AlertmanagerConfig) (w : World σ) :
    Extends Call.isRouting w.calls (r.deleteAlertManagerConfig w l).2.calls
      ∧ (r.deleteAlertManagerConfig w l).2.src = w.src := by
  induction l generalizing w with
  | nil => exact ⟨trace_refl _ _, rfl⟩
  | cons c rest ih =>
    simp only [Reconciler.deleteAlertManagerConfig]
    split
    · exact ⟨trace_call _ w _ (by rfl), rfl⟩
    · refine ⟨trace_trans (trace_call _ w _ (by rfl)) (ih _).1, ?_⟩
      rw [(ih _).2]; rfl

/-- Rule convergence only adds calls to the rule kind. -/
theorem reconcilePrometheusRule_trace {σ : Type} (r : Reconciler σ) (w : World σ) :
    Extends Call.isRule w.calls (r.reconcilePrometheusRule w).2.calls := by
  unfold Reconciler.reconcilePrometheusRule
  split
  · exact trace_refl _ _
  · simp only []
    split
    · exact trace_call _ _ _ (by rfl)
    · rw [(createPrometheusRule_world r _ _).1]
      exact trace_snoc (trace_call _ _ _ (by rfl)) (by rfl)
    · split
      · refine trace_trans ?_ (deletePrometheusRules_trace r _ _).1
        exact trace_call _ _ _ (by rfl)
      · refine trace_trans ?_ (deletePrometheusRules_trace r _ _).1
        rw [(updatePrometheusRule_world r _ _).1]
        exact trace_snoc (trace_call _ _ _ (by rfl)) (by rfl)

/-- The routing stage first calls the resolver and then only adds calls to the routing kind;
without a resolved address it adds none. -/
theorem reconcileAlertManagerConfig_trace {σ : Type} (r : Reconciler σ) (w : World σ) :
    Extends Call.isRouting (w.calls ++ [Call.AddressableFromDestinationV1 w.src.Spec.SourceSpec.Sink])
        (r.reconcileAlertManagerConfig w).2.calls
      ∧ ((∀ addr, r.resolver w.cluster w.src.Spec.SourceSpec.Sink w.src ≠ (some addr, none)) →
          (r.reconcileAlertManagerConfig w).2.calls
            = w.calls ++ [Call.AddressableFromDestinationV1 w.src.Spec.SourceSpec.Sink]) := by
  unfold Reconciler.reconcileAlertManagerConfig
  split
  · rename_i addr hres
    refine ⟨?_, fun h => absurd hres (h addr)⟩
    simp only []
    split
    · exact trace_refl _ _
    · split
      · exact trace_call _ _ _ (by rfl)
      · rw [(createAlertManagerConfig_world r _ _).1]
        exact trace_snoc (trace_call _ _ _ (by rfl)) (by rfl)
      · split
        · refine trace_trans ?_ (deleteAlertManagerConfig_trace r _ _).1
          exact trace_call _ _ _ (by rfl)
        · refine trace_trans ?_ (deleteAlertManagerConfig_trace r _ _).1
          rw [(updateAlertManagerConfig_world r _ _).1]
          exact trace_snoc (trace_call _ _ _ (by rfl)) (by rfl)
  · exact ⟨trace_refl _ _, fun _ => rfl⟩

/-- The world `ReconcileKind` leaves is the world `reconcilePrometheusResources` leaves. -/
theorem ReconcileKind_world {σ : Type} (r : Reconciler σ) (w : World σ) :
    (r.ReconcileKind w).2 = (r.reconcilePrometheusResources w).2 := by
  unfold Reconciler.ReconcileKind
  split <;> simp_all

/-- The shape of a pass: when rule convergence does not return nil nothing more is called;
when it does, the routing stage runs on the world it left. -/
theorem reconcilePrometheusResources_world {σ : Type} (r : Reconciler σ) (w : World σ) :
    ((r.reconcilePrometheusRule w).1 ≠ Outcome.returned none →
        (r.reconcilePrometheusResources w).2 = (r.reconcilePrometheusRule w).2)
      ∧ ((r.reconcilePrometheusRule w).1 = Outcome.returned none →
        (r.reconcilePrometheusResources w).2
          = (r.reconcileAlertManagerConfig (r.reconcilePrometheusRule w).2).2) := by
  unfold Reconciler.reconcilePrometheusResources
  split
  · rename_i h; simp [h]
  · rename_i h; simp [h]
  · rename_i h
    simp only [h]
    refine ⟨fun hne => absurd rfl hne, fun _ => ?_⟩
    split <;> simp_all

/-- A call to the rule kind is neither the sink resolution nor a call to the routing kind. -/
theorem isRule_exclusive (c : Call) (h : c.isRule = true) :
    c.isResolve = false ∧ c.isRouting = false := by
  cases c <;> simp_all [Call.isRule, Call.isResolve, Call.isRouting]

/-- C5 (sequencing within one reconcile pass). In a pass started on any source and cluster:
a call to the sink resolver is in the trace only if rule convergence returned nil; a list,
create, update or delete call for an `AlertmanagerConfig` is in the trace only if rule
convergence returned nil and the resolver returned an address without error; the calls of
rule convergence open the trace of the pass; and when rule convergence returned nil and the
resolver fails, the trace of the pass is the calls of rule convergence followed by the
resolver call alone. -/
theorem C5_sequencing {σ : Type} (r : Reconciler σ) (src : PrometheusRuleSource) (cluster : σ) :
    (∀ c ∈ (r.ReconcileKind (World.start src cluster)).2.calls, c.isResolve = true →
        (r.reconcilePrometheusRule (World.start src cluster)).1 = Outcome.returned none)
    ∧ (∀ c ∈ (r.ReconcileKind (World.start src cluster)).2.calls, c.isRouting = true →
        (r.reconcilePrometheusRule (World.start src cluster)).1 = Outcome.returned none
        ∧ ∃ addr, r.resolver (r.reconcilePrometheusRule (World.start src cluster)).2.cluster
            (r.reconcilePrometheusRule (World.start src cluster)).2.src.Spec.SourceSpec.Sink
            (r.reconcilePrometheusRule (World.start src cluster)).2.src = (some addr, none))
    ∧ (r.reconcilePrometheusRule (World.start src cluster)).2.calls
        <+: (r.ReconcileKind (World.start src cluster)).2.calls
    ∧ ((r.reconcilePrometheusRule (World.start src cluster)).1 = Outcome.returned none →
        (∀ addr, r.resolver (r.reconcilePrometheusRule (World.start src cluster)).2.cluster
            (r.reconcilePrometheusRule (World.start src cluster)).2.src.Spec.SourceSpec.Sink
            (r.reconcilePrometheusRule (World.start src cluster)).2.src ≠ (some addr, none)) →
        (r.ReconcileKind (World.start src cluster)).2.calls
          = (r.reconcilePrometheusRule (World.start src cluster)).2.calls
            ++ [Call.AddressableFromDestinationV1
                (r.reconcilePrometheusRule (World.start src cluster)).2.src.Spec.SourceSpec.Sink]) := by
  obtain ⟨ruleCalls, hrule, hisRule⟩ := reconcilePrometheusRule_trace r (World.start src cluster)
  have hshape := reconcilePrometheusResources_world r (World.start src cluster)
  rw [ReconcileKind_world]
  by_cases hok : (r.reconcilePrometheusRule (World.start src cluster)).1 = Outcome.returned none
  · rw [hshape.2 hok]
    obtain ⟨⟨tail, htail, hisRouting⟩, hfail⟩ :=
      reconcileAlertManagerConfig_trace r (r.reconcilePrometheusRule (World.start src cluster)).2
    refine ⟨fun _ _ _ => hok, ?_, ?_, fun _ hno => hfail hno⟩
    swap
    · rw [htail, List.append_assoc]
      exact List.prefix_append _ _
    intro c hc hrouting
    refine ⟨hok, ?_⟩
    by_contra hno
    have hno2 : ∀ addr, r.resolver (r.reconcilePrometheusRule (World.start src cluster)).2.cluster
        (r.reconcilePrometheusRule (World.start src cluster)).2.src.Spec.SourceSpec.Sink
        (r.reconcilePrometheusRule (World.start src cluster)).2.src ≠ (some addr, none) :=
      fun addr h => hno ⟨addr, h⟩
    rw [hfail hno2, hrule] at hc
    simp only [World.start, List.nil_append, List.mem_append, List.mem_singleton] at hc
    rcases hc with hc | hc
    · have := (isRule_exclusive c (hisRule c hc)).2
      simp [hrouting] at this
    · subst hc
      simp [Call.isRouting] at hrouting
  · rw [hshape.1 hok, hrule]
    simp only [World.start, List.nil_append]
    refine ⟨?_, ?_, List.prefix_refl _, fun h => absurd h hok⟩
    · intro c hc hres
      have := (isRule_exclusive c (hisRule c hc)).1
      simp [hres] at this
    · intro c hc hrouting
      have := (isRule_exclusive c (hisRule c hc)).2
      simp [hrouting] at this

/-- In well-formed conditions a condition is found under its type. -/
theorem getCondition_of_mem {conds : List apis.Condition} (hnd : wellFormedConditions conds)
    {c : apis.Condition} (hc : c ∈ conds) : apis.GetCondition conds c.Type_ = some c := by
  unfold apis.GetCondition
  cases hf : conds.find? (fun x => decide (x.Type_ = c.Type_)) with
  | none =>
    have := List.find?_eq_none.mp hf c hc
    simp at this
  | some x =>
    have hx : x ∈ conds := List.mem_of_find?_eq_some hf
    have hp : x.Type_ = c.Type_ := by simpa using List.find?_some hf
    rw [List.inj_on_of_nodup_map hnd hx hc hp]

/-- Membership in the conditions after `SetCondition`. -/
theorem mem_SetCondition {conds : List apis.Condition} (hnd : wellFormedConditions conds)
    (c x : apis.Condition) :
    x ∈ apis.SetCondition conds c ↔ x = c ∨ (x ∈ conds ∧ x.Type_ ≠ c.Type_) := by
  unfold apis.SetCondition
  split
  · rename_i hc
    constructor
    · intro hx
      by_cases ht : x.Type_ = c.Type_
      · exact Or.inl (List.inj_on_of_nodup_map hnd hx hc ht)
      · exact Or.inr ⟨hx, ht⟩
    · rintro (rfl | ⟨hx, _⟩)
      · exact hc
      · exact hx
  · rw [(List.perm_insertionSort _ _).mem_iff]
    simp only [List.mem_append, List.mem_filter, List.mem_singleton, decide_eq_true_eq]
    tauto

/-- The conditions stay well-formed under `SetCondition`. -/
theorem wellFormed_SetCondition {conds : List apis.Condition} (hnd : wellFormedConditions conds)
    (c : apis.Condition) : wellFormedConditions (apis.SetCondition conds c) := by
  unfold apis.SetCondition
  split
  · exact hnd
  · unfold wellFormedConditions
    rw [((List.perm_insertionSort _ _).map _).nodup_iff, List.map_append]
    refine List.Nodup.append (hnd.sublist (List.Sublist.map _ (List.filter_sublist _))) (by simp) ?_
    intro t ht hc
    simp only [List.map_cons, List.map_nil, List.mem_singleton] at hc
    obtain ⟨y, hy, rfl⟩ := List.mem_map.mp ht
    have := (List.mem_filter.mp hy).2
    simp [hc] at this

/-- After `SetCondition` the condition set is found under its type. -/
theorem getCondition_SetCondition_same {conds : List apis.Condition}
    (hnd : wellFormedConditions conds) (c : apis.Condition) :
    apis.GetCondition (apis.SetCondition conds c) c.Type_ = some c :=
  getCondition_of_mem (wellFormed_SetCondition hnd c) ((mem_SetCondition hnd c c).mpr (Or.inl rfl))

/-- The method `SetCondition` leaves the conditions of other types as they were. -/
theorem getCondition_SetCondition_other {conds : List apis.Condition}
    (hnd : wellFormedConditions conds) (c : apis.Condition) (t : String) (ht : t ≠ c.Type_) :
    apis.GetCondition (apis.SetCondition conds c) t = apis.GetCondition conds t := by
  cases hf : apis.GetCondition conds t with
  | some x =>
    have hx : x ∈ conds := List.mem_of_find?_eq_some hf
    have hp : x.Type_ = t := by simpa using List.find?_some hf
    subst hp
    exact getCondition_of_mem (wellFormed_SetCondition hnd c)
      ((mem_SetCondition hnd c x).mpr (Or.inr ⟨hx, ht⟩))
  | none =>
    unfold apis.GetCondition at hf ⊢
    rw [List.find?_eq_none] at hf ⊢
    intro y hy
    rcases (mem_SetCondition hnd c y).mp hy with rfl | ⟨hy, _⟩
    · simpa using fun h => ht h.symm
    · exact hf y hy

/-- The SinkProvided condition is not the happy condition. -/
theorem sinkProvided_ne_happy :
    PrometheusRuleConditionSinkProvided ≠ PrometheusRuleCondSet.happy := by decide

/-- After `MarkFalse` on the SinkProvided condition, that condition is False with the reason
given and the formatted message. -/
theorem MarkFalse_condition (conds : List apis.Condition) (hnd : wellFormedConditions conds)
    (reason messageFormat : String) (messageA : List String) :
    apis.GetCondition
        (PrometheusRuleCondSet.MarkFalse conds PrometheusRuleConditionSinkProvided reason
          messageFormat messageA) PrometheusRuleConditionSinkProvided
      = some { Type_ := PrometheusRuleConditionSinkProvided, Status := "False", Reason := reason,
               Message := fmt.Sprintf messageFormat messageA } := by
  have hdep : PrometheusRuleCondSet.dependents.filter
      (fun d => decide (d = PrometheusRuleConditionSinkProvided))
      = [PrometheusRuleConditionSinkProvided] := by decide
  simp only [apis.ConditionSet.MarkFalse, hdep, List.map_cons, List.map_nil, List.foldl_cons,
    List.foldl_nil]
  rw [getCondition_SetCondition_other (wellFormed_SetCondition hnd _) _ _ sinkProvided_ne_happy]
  exact getCondition_SetCondition_same hnd _

/-- After `MarkTrue` on the SinkProvided condition, that condition is True. -/
theorem MarkTrue_condition (conds : List apis.Condition) (hnd : wellFormedConditions conds) :
    apis.GetCondition
        (PrometheusRuleCondSet.MarkTrue conds PrometheusRuleConditionSinkProvided)
        PrometheusRuleConditionSinkProvided
      = some { Type_ := PrometheusRuleConditionSinkProvided, Status := "True", Reason := "",
               Message := "" } := by
  simp only [apis.ConditionSet.MarkTrue]
  split
  · rw [getCondition_SetCondition_other (wellFormed_SetCondition hnd _) _ _ sinkProvided_ne_happy]
    exact getCondition_SetCondition_same hnd _
  · rw [if_pos sinkProvided_ne_happy,
      getCondition_SetCondition_other (wellFormed_SetCondition hnd _) _ _ sinkProvided_ne_happy]
    exact getCondition_SetCondition_same hnd _

/-- After `MarkUnknown` on the SinkProvided condition, that condition is Unknown with the
reason given and the formatted message. -/
theorem MarkUnknown_condition (conds : List apis.Condition) (hnd : wellFormedConditions conds)
    (reason messageFormat : String) (messageA : List String) :
    apis.GetCondition
        (PrometheusRuleCondSet.MarkUnknown conds PrometheusRuleConditionSinkProvided reason
          messageFormat messageA) PrometheusRuleConditionSinkProvided
      = some { Type_ := PrometheusRuleConditionSinkProvided, Status := "Unknown",
               Reason := reason, Message := fmt.Sprintf messageFormat messageA } := by
  have hdeps : PrometheusRuleCondSet.dependents = [PrometheusRuleConditionSinkProvided] := rfl
  simp only [apis.ConditionSet.MarkUnknown, hdeps, apis.ConditionSet.markUnknownDependents]
  rw [getCondition_SetCondition_same hnd]
  have hne : decide ("Unknown" = "False") = false := by decide
  simp only [Option.any_some, Bool.false_or, decide_True, if_true, hne, Bool.false_eq_true,
    if_false]
  rw [getCondition_SetCondition_other (wellFormed_SetCondition hnd _) _ _ sinkProvided_ne_happy]
  exact getCondition_SetCondition_same hnd _

/-- After `MarkNoSink` the SinkProvided condition is False with the reason given and the
formatted message. -/
theorem MarkNoSink_condition (s : PrometheusRuleSourceStatus)
    (hnd : wellFormedConditions s.SourceStatus.Status.Conditions)
    (reason messageFormat : String) (messageA : List String) :
    (s.MarkNoSink reason messageFormat messageA).GetCondition PrometheusRuleConditionSinkProvided
      = some { Type_ := PrometheusRuleConditionSinkProvided, Status := "False", Reason := reason,
               Message := fmt.Sprintf messageFormat messageA } :=
  MarkFalse_condition _ hnd reason messageFormat messageA

/-- After `MarkSink` the sink address is stored, and the SinkProvided condition is True for
an address that is not empty and Unknown for an empty one. -/
theorem MarkSink_condition (s : PrometheusRuleSourceStatus)
    (hnd : wellFormedConditions s.SourceStatus.Status.Conditions) (uri : Option apis.URL) :
    (s.MarkSink uri).SourceStatus.SinkURI = uri
    ∧ (apis.URL.IsEmpty uri = false →
        (s.MarkSink uri).GetCondition PrometheusRuleConditionSinkProvided
          = some { Type_ := PrometheusRuleConditionSinkProvided, Status := "True", Reason := "",
                   Message := "" })
    ∧ (apis.URL.IsEmpty uri = true →
        (s.MarkSink uri).GetCondition PrometheusRuleConditionSinkProvided
          = some { Type_ := PrometheusRuleConditionSinkProvided, Status := "Unknown",
                   Reason := "SinkEmpty", Message := "Sink has resolved to empty." }) := by
  refine ⟨?_, ?_, ?_⟩
  · unfold PrometheusRuleSourceStatus.MarkSink
    simp only []
    split <;> rfl
  · intro he
    unfold PrometheusRuleSourceStatus.MarkSink
    simp only [he, Bool.not_false, if_true]
    exact MarkTrue_condition _ hnd
  · intro he
    have hmsg : fmt.Sprintf "Sink has resolved to empty.%s" [""] = "Sink has resolved to empty." := by
      decide
    unfold PrometheusRuleSourceStatus.MarkSink
    simp only [he, Bool.not_true, Bool.false_eq_true, if_false]
    rw [← hmsg]
    exact MarkUnknown_condition _ hnd _ _ _

/-- Rule convergence leaves the specification and the status of the source as they were. -/
theorem reconcilePrometheusRule_src {σ : Type} (r : Reconciler σ) (w : World σ) :
    (r.reconcilePrometheusRule w).2.src.Spec = w.src.Spec
      ∧ (r.reconcilePrometheusRule w).2.src.Status = w.src.Status := by
  unfold Reconciler.reconcilePrometheusRule
  split
  · exact ⟨rfl, rfl⟩
  · simp only []
    split
    · exact ⟨rfl, rfl⟩
    · rw [(createPrometheusRule_world r _ _).2]; exact ⟨rfl, rfl⟩
    · split
      · rw [(deletePrometheusRules_trace r _ _).2]; exact ⟨rfl, rfl⟩
      · rw [(deletePrometheusRules_trace r _ _).2, (updatePrometheusRule_world r _ _).2]
        exact ⟨rfl, rfl⟩

/-- The routing stage without a resolved address: the error is returned, the status marked
with `MarkNoSink`, and nothing but the resolver is called. -/
theorem reconcileAlertManagerConfig_unresolved {σ : Type} (r : Reconciler σ) (w : World σ)
    (a : Option duckv1.Addressable) (e : Option String)
    (hres : r.resolver w.cluster w.src.Spec.SourceSpec.Sink w.src = (a, e))
    (hfail : a = none ∨ e ≠ none) :
    (r.reconcileAlertManagerConfig w).1
        = Outcome.returned (some (fmt.Errorf "failed to resolve sink address" e))
      ∧ (r.reconcileAlertManagerConfig w).2.src.Status
        = w.src.Status.MarkNoSink "Error" (fmt.Errorf "failed to resolve sink address" e) [] := by
  unfold Reconciler.reconcileAlertManagerConfig
  rw [hres]
  cases a with
  | none => exact ⟨rfl, rfl⟩
  | some addr =>
    cases e with
    | none => simp at hfail
    | some err => exact ⟨rfl, rfl⟩

/-- The routing stage with a resolved address: the status is the one `MarkSink` leaves. -/
theorem reconcileAlertManagerConfig_resolved {σ : Type} (r : Reconciler σ) (w : World σ)
    (addr : duckv1.Addressable)
    (hres : r.resolver w.cluster w.src.Spec.SourceSpec.Sink w.src = (some addr, none)) :
    (r.reconcileAlertManagerConfig w).2.src.Status = w.src.Status.MarkSink addr.URL := by
  unfold Reconciler.reconcileAlertManagerConfig
  rw [hres]
  simp only []
  split
  · rfl
  · split
    · rfl
    · rw [(createAlertManagerConfig_world r _ _).2]; rfl
    · split
      · rw [(deleteAlertManagerConfig_trace r _ _).2]; rfl
      · rw [(deleteAlertManagerConfig_trace r _ _).2, (updateAlertManagerConfig_world r _ _).2]
        rfl

/-- C6 as the code has it (an unresolved sink is returned as an error). In a pass in which
rule convergence returns nil and the resolver returns no address or an error,
`ReconcileKind` returns a non-nil error that wraps the resolver failure, and the
SinkProvided condition of the source is False with reason `Error`. -/
theorem C6_unresolved_sink_is_returned {σ : Type} (r : Reconciler σ) (w : World σ)
    (a : Option duckv1.Addressable) (e : Option String)
    (hnd : wellFormedConditions w.src.Status.SourceStatus.Status.Conditions)
    (hrule : (r.reconcilePrometheusRule w).1 = Outcome.returned none)
    (hres : r.resolver (r.reconcilePrometheusRule w).2.cluster
      (r.reconcilePrometheusRule w).2.src.Spec.SourceSpec.Sink (r.reconcilePrometheusRule w).2.src
        = (a, e))
    (hfail : a = none ∨ e ≠ none) :
    (r.ReconcileKind w).1
        = Outcome.returned (some ("failed to reconcile prometheus resources: "
            ++ ("failed to reconcile alert manager config: "
            ++ fmt.Errorf "failed to resolve sink address" e)))
      ∧ (r.ReconcileKind w).2.src.Status.GetCondition PrometheusRuleConditionSinkProvided
        = some { Type_ := PrometheusRuleConditionSinkProvided, Status := "False",
                 Reason := "Error",
                 Message := fmt.Sprintf (fmt.Errorf "failed to resolve sink address" e) [] } := by
  have hun := reconcileAlertManagerConfig_unresolved r (r.reconcilePrometheusRule w).2 a e hres hfail
  have hpair : r.reconcilePrometheusRule w
      = (Outcome.returned none, (r.reconcilePrometheusRule w).2) := by
    rw [← hrule]
  have hpair2 : r.reconcileAlertManagerConfig (r.reconcilePrometheusRule w).2
      = (Outcome.returned (some (fmt.Errorf "failed to resolve sink address" e)),
          (r.reconcileAlertManagerConfig (r.reconcilePrometheusRule w).2).2) := by
    rw [← hun.1]
  have hkind : r.reconcilePrometheusResources w
      = (Outcome.returned (some (fmt.Errorf "failed to reconcile alert manager config"
          (some (fmt.Errorf "failed to resolve sink address" e)))),
          (r.reconcileAlertManagerConfig (r.reconcilePrometheusRule w).2).2) := by
    unfold Reconciler.reconcilePrometheusResources
    rw [hpair]
    simp only []
    rw [hpair2]
  constructor
  · unfold Reconciler.ReconcileKind
    rw [hkind]
    simp [fmt.Errorf]
  · rw [ReconcileKind_world, hkind]
    simp only []
    rw [hun.2, (reconcilePrometheusRule_src r w).2]
    exact MarkNoSink_condition _ hnd _ _ _

/-- C6 as the code has it, at a concrete pass: `alpha` against an empty cluster whose
resolver fails with `no endpoint`. -/
theorem C6_unresolved_sink_is_returned_witness :
    ((scripted (unresolvedScript "no endpoint")).ReconcileKind (World.start alpha ())).1
        = Outcome.returned (some ("failed to reconcile prometheus resources: "
            ++ ("failed to reconcile alert manager config: "
            ++ fmt.Errorf "failed to resolve sink address" (some "no endpoint"))))
      ∧ ((scripted (unresolvedScript "no endpoint")).ReconcileKind
            (World.start alpha ())).2.src.Status.GetCondition PrometheusRuleConditionSinkProvided
        = some { Type_ := PrometheusRuleConditionSinkProvided, Status := "False",
                 Reason := "Error",
                 Message := fmt.Sprintf
                   (fmt.Errorf "failed to resolve sink address" (some "no endpoint")) [] } :=
  C6_unresolved_sink_is_returned (scripted (unresolvedScript "no endpoint"))
    (World.start alpha ()) none (some "no endpoint") (by decide) (by decide) rfl (Or.inl rfl)

/-- C6 as claimed fails: rule convergence succeeds (it creates the rule), the resolver fails
with `no endpoint`, and `ReconcileKind` does not return nil but the wrapped resolver
error. -/
theorem C6_counterexample :
    ((scripted (unresolvedScript "no endpoint")).reconcilePrometheusRule
        (World.start alpha ())).1 = Outcome.returned none
      ∧ (scripted (unresolvedScript "no endpoint")).resolver () alpha.Spec.SourceSpec.Sink alpha
        = (none, some "no endpoint")
      ∧ ((scripted (unresolvedScript "no endpoint")).ReconcileKind (World.start alpha ())).1
        = Outcome.returned (some ("failed to reconcile prometheus resources: failed to "
            ++ "reconcile alert manager config: failed to resolve sink address: no endpoint"))
      ∧ ((scripted (unresolvedScript "no endpoint")).ReconcileKind (World.start alpha ())).1
        ≠ Outcome.returned none := by
  decide

/-- C7 (the SinkProvided message carries the resolver's text verbatim): evaluated at the pass
of `alpha` with a resolver error whose text holds a percent sign. The error text is used as
the format of the condition message, so the message holds `%!z(MISSING)` where the text has
`%z`, and does not contain the text. -/
theorem C7_percent_sign_is_mangled :
    ((scripted (unresolvedScript "invalid URL escape \"%zz\"")).reconcileAlertManagerConfig
        (World.start alpha ())).2.src.Status.GetCondition PrometheusRuleConditionSinkProvided
      = some { Type_ := PrometheusRuleConditionSinkProvided, Status := "False",
               Reason := "Error",
               Message := "failed to resolve sink address: invalid URL escape \"%!z(MISSING)z\"" }
    ∧ ¬ ("invalid URL escape \"%zz\"".toList
          <:+: "failed to resolve sink address: invalid URL escape \"%!z(MISSING)z\"".toList) := by
  decide

/-- C8 (the SinkProvided condition is a function of the resolver outcome). After the routing
stage on a source with well-formed conditions: a resolved address that is not empty gives
True and is stored as the sink URI of the status; an error from the resolver gives False; a
resolved addressable whose address is empty gives Unknown; no addressable and no error gives
False. -/
theorem C8_condition_follows_resolver {σ : Type} (r : Reconciler σ) (w : World σ)
    (hnd : wellFormedConditions w.src.Status.SourceStatus.Status.Conditions) :
    (∀ addr, r.resolver w.cluster w.src.Spec.SourceSpec.Sink w.src = (some addr, none) →
        apis.URL.IsEmpty addr.URL = false →
        (r.reconcileAlertManagerConfig w).2.src.Status.GetCondition
            PrometheusRuleConditionSinkProvided
          = some { Type_ := PrometheusRuleConditionSinkProvided, Status := "True", Reason := "",
                   Message := "" }
        ∧ (r.reconcileAlertManagerConfig w).2.src.Status.SourceStatus.SinkURI = addr.URL)
    ∧ (∀ a err, r.resolver w.cluster w.src.Spec.SourceSpec.Sink w.src = (a, some err) →
        (r.reconcileAlertManagerConfig w).2.src.Status.GetCondition
            PrometheusRuleConditionSinkProvided
          = some { Type_ := PrometheusRuleConditionSinkProvided, Status := "False",
                   Reason := "Error",
                   Message := fmt.Sprintf
                     (fmt.Errorf "failed to resolve sink address" (some err)) [] })
    ∧ (∀ addr, r.resolver w.cluster w.src.Spec.SourceSpec.Sink w.src = (some addr, none) →
        apis.URL.IsEmpty addr.URL = true →
        (r.reconcileAlertManagerConfig w).2.src.Status.GetCondition
            PrometheusRuleConditionSinkProvided
          = some { Type_ := PrometheusRuleConditionSinkProvided, Status := "Unknown",
                   Reason := "SinkEmpty", Message := "Sink has resolved to empty." })
    ∧ (r.resolver w.cluster w.src.Spec.SourceSpec.Sink w.src = (none, none) →
        (r.reconcileAlertManagerConfig w).2.src.Status.GetCondition
            PrometheusRuleConditionSinkProvided
          = some { Type_ := PrometheusRuleConditionSinkProvided, Status := "False",
                   Reason := "Error",
                   Message := fmt.Sprintf (fmt.Errorf "failed to resolve sink address" none) [] }) := by
  refine ⟨?_, ?_, ?_, ?_⟩
  · intro addr hres he
    rw [reconcileAlertManagerConfig_resolved r w addr hres]
    exact ⟨(MarkSink_condition _ hnd _).2.1 he, (MarkSink_condition _ hnd _).1⟩
  · intro a err hres
    rw [(reconcileAlertManagerConfig_unresolved r w a (some err) hres (Or.inr (by simp))).2]
    exact MarkNoSink_condition _ hnd _ _ _
  · intro addr hres he
    rw [reconcileAlertManagerConfig_resolved r w addr hres]
    exact (MarkSink_condition _ hnd _).2.2 he
  · intro hres
    rw [(reconcileAlertManagerConfig_unresolved r w none none hres (Or.inl rfl)).2]
    exact MarkNoSink_condition _ hnd _ _ _

/-- C8 at a concrete pass: the resolver returns `http://sink.example/x` for `alpha`; the
condition is True and the stored sink URI is that address. -/
theorem C8_condition_follows_resolver_witness :
    wellFormedConditions alpha.Status.SourceStatus.Status.Conditions
    ∧ ((scripted happyScript).reconcileAlertManagerConfig
          (World.start alpha ())).2.src.Status.GetCondition PrometheusRuleConditionSinkProvided
        = some { Type_ := PrometheusRuleConditionSinkProvided, Status := "True", Reason := "",
                 Message := "" }
    ∧ ((scripted happyScript).reconcileAlertManagerConfig
          (World.start alpha ())).2.src.Status.SourceStatus.SinkURI
        = some { Scheme := "http", Host := "sink.example", Path := "/x" } :=
  ⟨by decide,
    (C8_condition_follows_resolver (scripted happyScript) (World.start alpha ()) (by decide)).1
      sinkAddress rfl (by decide)⟩

/-- C9 (no routing body is written with an empty sink address): evaluated at the pass of
`alpha` against an empty cluster whose resolver returns an addressable without an address
and no error. The SinkProvided condition becomes Unknown, and the pass still creates the
routing config, with the empty string as the address of its webhook. -/
theorem C9_empty_address_is_written :
    (scripted emptyAddressScript).resolver () alpha.Spec.SourceSpec.Sink alpha
        = (some emptyAddress, none)
    ∧ ((scripted emptyAddressScript).ReconcileKind (World.start alpha ())).1
        = Outcome.returned none
    ∧ ((scripted emptyAddressScript).ReconcileKind (World.start alpha ())).2.calls.getLast?
        = some (Call.CreateAlertmanagerConfig "ns"
            (desiredAlertmanagerConfig alpha [(SourceSelector, "true")] emptyAddress))
    ∧ webhookURLs (desiredAlertmanagerConfig alpha [(SourceSelector, "true")] emptyAddress)
        = [[some ""]]
    ∧ (((scripted emptyAddressScript).ReconcileKind
          (World.start alpha ())).2.src.Status.GetCondition
            PrometheusRuleConditionSinkProvided).map (fun c => c.Status) = some "Unknown" := by
  decide

/-- C10 as the code has it (deterministic naming). For every source, the desired rule and
the desired routing config have the same name, `kmeta.ChildName` of the source name and
`kne`; for a source name of at most 60 bytes that is the source name directly followed by
`kne`, and for a longer one the first 28 characters of the source name, the hex md5 digest of
the source name, and `kne`. -/
theorem C10_child_names (src : PrometheusRuleSource) (labels labelsR : List (String × String))
    (addr : duckv1.Addressable) :
    (desiredPrometheusRule src labels).ObjectMeta.Name
        = (desiredAlertmanagerConfig src labelsR addr).ObjectMeta.Name
    ∧ (src.ObjectMeta.Name.utf8ByteSize ≤ 60 →
        (desiredPrometheusRule src labels).ObjectMeta.Name = src.ObjectMeta.Name ++ "kne")
    ∧ (60 < src.ObjectMeta.Name.utf8ByteSize →
        (desiredPrometheusRule src labels).ObjectMeta.Name
          = src.ObjectMeta.Name.take 28
            ++ md5.hex (md5.Sum (md5.bytesOf src.ObjectMeta.Name)) ++ "kne") := by
  have h3 : "kne".utf8ByteSize = 3 := by decide
  refine ⟨rfl, ?_, ?_⟩
  · intro h
    simp only [desiredPrometheusRule, kmeta.ChildName, kmeta.longest, h3]
    rw [if_neg (by omega)]
  · intro h
    simp only [desiredPrometheusRule, kmeta.ChildName, kmeta.longest, kmeta.head, kmeta.md5Len, h3]
    rw [if_pos (by omega), if_neg (by omega)]

/-- C10 as claimed fails: for the source name `alpha` both children are named `alphakne`,
which is not `alpha-kne`. -/
theorem C10_counterexample :
    (desiredPrometheusRule alpha []).ObjectMeta.Name = "alphakne"
    ∧ (desiredAlertmanagerConfig alpha [] sinkAddress).ObjectMeta.Name = "alphakne"
    ∧ (desiredPrometheusRule alpha []).ObjectMeta.Name ≠ "alpha" ++ "-" ++ "kne" := by
  decide

/-! ### Go maps -/

/-- After `m[k] = v`, reading `m[k]` gives `v`. -/
theorem lookup_insert_same (m : List (String × String)) (k v : String) :
    gomap.lookup (gomap.insert m k v) k = some v := by
  induction m with
  | nil => simp [gomap.insert, gomap.lookup]
  | cons e rest ih =>
    simp only [gomap.insert]
    split
    · simp [gomap.lookup]
    · rename_i h
      simp [gomap.lookup, h, ih]

/-- After `m[k] = v`, the other keys read as before. -/
theorem lookup_insert_other (m : List (String × String)) (k v k' : String) (h : k' ≠ k) :
    gomap.lookup (gomap.insert m k v) k' = gomap.lookup m k' := by
  induction m with
  | nil => simp [gomap.insert, gomap.lookup, Ne.symm h]
  | cons e rest ih =>
    simp only [gomap.insert]
    split
    · rename_i he
      simp [gomap.lookup, he, Ne.symm h]
    · simp only [gomap.lookup, ih]

/-! ### Convergence against the cluster -/

set_option maxRecDepth 16000

/-- C2 (self-healing duplicates): evaluated at the defaulted source `alpha` and a cluster that
holds two children of each kind for it, with unique names, each written at a revision of its
own and both with bodies other than the desired one; the lister returns the child named `r0`
(`a0`) first and the child that bears the derived name `alphakne` second. The update carries
the derived name together with the resource version of the first listed child, so the store
refuses it as a conflict on `alphakne`; the deferred deletion then removes `alphakne`, naming
it and carrying its UID. The pass returns the error and leaves the one child `r0` (`a0`),
whose body is not the desired one. The next pass sends the same update, which now finds no
object of that name, and leaves the store as it is. -/
theorem C2_update_is_addressed_by_derived_name :
    (apiserver.uniqueKeys (fun x : monitoringv1.PrometheusRule => x.ObjectMeta)
        apiserver.strayFirst.rules
      ∧ apiserver.list (fun x : monitoringv1.PrometheusRule => x.ObjectMeta)
          apiserver.strayFirst.rules "ns" [(SourceNameLabel, "alpha")]
        = [apiserver.storedRule "r0" "u0" "5", apiserver.storedRule "alphakne" "u1" "6"]
      ∧ (apiserver.reconciler.reconcilePrometheusRule
          (World.start alpha.SetDefaults apiserver.strayFirst)).1
        = Outcome.returned (some ("failed to update prometheus rule ns/alphakne: "
            ++ "Operation cannot be fulfilled on prometheusrules.monitoring.coreos.com "
            ++ "\"alphakne\": the object has been modified; please apply your changes to "
            ++ "the latest version and try again"))
      ∧ (apiserver.reconciler.reconcilePrometheusRule
          (World.start alpha.SetDefaults apiserver.strayFirst)).2.calls
        = [Call.ListPrometheusRules "ns" [(SourceNameLabel, "alpha")],
           Call.UpdatePrometheusRule "ns"
             (stampPrometheusRule
               (desiredPrometheusRule alpha.SetDefaults (apiserver.defaultedLabels alpha))
               (apiserver.storedRule "r0" "u0" "5")),
           Call.DeletePrometheusRule "ns" "alphakne" "u1"]
      ∧ (apiserver.reconciler.reconcilePrometheusRule
          (World.start alpha.SetDefaults apiserver.strayFirst)).2.cluster.rules
        = [apiserver.storedRule "r0" "u0" "5"]
      ∧ (apiserver.storedRule "r0" "u0" "5").Spec
        ≠ (desiredPrometheusRule alpha.SetDefaults (apiserver.defaultedLabels alpha)).Spec
      ∧ (apiserver.reconciler.reconcilePrometheusRule
          (World.start alpha.SetDefaults
            (apiserver.reconciler.reconcilePrometheusRule
              (World.start alpha.SetDefaults apiserver.strayFirst)).2.cluster)).1
        = Outcome.returned (some ("failed to update prometheus rule ns/alphakne: "
            ++ "prometheusrules.monitoring.coreos.com \"alphakne\" not found"))
      ∧ (apiserver.reconciler.reconcilePrometheusRule
          (World.start alpha.SetDefaults
            (apiserver.reconciler.reconcilePrometheusRule
              (World.start alpha.SetDefaults apiserver.strayFirst)).2.cluster)).2.cluster
        = (apiserver.reconciler.reconcilePrometheusRule
            (World.start alpha.SetDefaults apiserver.strayFirst)).2.cluster)
    ∧ (apiserver.uniqueKeys (fun x : monitoringv1alpha1.AlertmanagerConfig => x.ObjectMeta)
        apiserver.strayFirst.amcs
      ∧ apiserver.list (fun x : monitoringv1alpha1.AlertmanagerConfig => x.ObjectMeta)
          apiserver.strayFirst.amcs "ns" [(SourceNameLabel, "alpha")]
        = [apiserver.storedAmc "a0" "v0" "7", apiserver.storedAmc "alphakne" "v1" "8"]
      ∧ (apiserver.reconciler.reconcileAlertManagerConfig
          (World.start alpha.SetDefaults apiserver.strayFirst)).1
        = Outcome.returned (some ("failed to update alert manager config ns/alphakne: "
            ++ "Operation cannot be fulfilled on alertmanagerconfigs.monitoring.coreos.com "
            ++ "\"alphakne\": the object has been modified; please apply your changes to "
            ++ "the latest version and try again"))
      ∧ (apiserver.reconciler.reconcileAlertManagerConfig
          (World.start alpha.SetDefaults apiserver.strayFirst)).2.calls
        = [Call.AddressableFromDestinationV1 alpha.Spec.SourceSpec.Sink,
           Call.ListAlertmanagerConfigs "ns" [(SourceNameLabel, "alpha")],
           Call.UpdateAlertmanagerConfig "ns"
             (stampAlertmanagerConfig
               (desiredAlertmanagerConfig alpha.SetDefaults (apiserver.defaultedLabels alpha)
                 sinkAddress)
               (apiserver.storedAmc "a0" "v0" "7")),
           Call.DeleteAlertmanagerConfig "ns" "alphakne" "v1"]
      ∧ (apiserver.reconciler.reconcileAlertManagerConfig
          (World.start alpha.SetDefaults apiserver.strayFirst)).2.cluster.amcs
        = [apiserver.storedAmc "a0" "v0" "7"]
      ∧ (apiserver.storedAmc "a0" "v0" "7").Spec
        ≠ (desiredAlertmanagerConfig alpha.SetDefaults (apiserver.defaultedLabels alpha)
            sinkAddress).Spec
      ∧ (apiserver.reconciler.reconcileAlertManagerConfig
          (World.start alpha.SetDefaults
            (apiserver.reconciler.reconcileAlertManagerConfig
              (World.start alpha.SetDefaults apiserver.strayFirst)).2.cluster)).1
        = Outcome.returned (some ("failed to update alert manager config ns/alphakne: "
            ++ "alertmanagerconfigs.monitoring.coreos.com \"alphakne\" not found"))
      ∧ (apiserver.reconciler.reconcileAlertManagerConfig
          (World.start alpha.SetDefaults
            (apiserver.reconciler.reconcileAlertManagerConfig
              (World.start alpha.SetDefaults apiserver.strayFirst)).2.cluster)).2.cluster
        = (apiserver.reconciler.reconcileAlertManagerConfig
            (World.start alpha.SetDefaults apiserver.strayFirst)).2.cluster) := by
  decide

/-- C4 (idempotence): evaluated at the defaulted source `alpha` and a cluster without
children in which the sink resolves. The children the reconciler builds carry generation 0,
which the derivative comparison takes by equality, so no built child is satisfied by a child
stored at a generation above 0, whatever the rest of it. The first pass returns nil and
creates both children, which the store holds at generation 1 with the bodies sent. The
second pass, with nothing changed in between, returns nil and issues one update per kind,
each carrying the body already stored and each recorded as an event; the updates leave the
store as it was, so every further pass issues them again. -/
theorem C4_second_pass_updates_again :
    (∀ (src : PrometheusRuleSource) (labels : List (String × String))
        (got : monitoringv1.PrometheusRule) (n : Nat),
        equality.DeepDerivativePrometheusRule (desiredPrometheusRule src labels)
          { got with ObjectMeta := { got.ObjectMeta with Generation := (n : Int) + 1 } } = false)
    ∧ (∀ (src : PrometheusRuleSource) (labels : List (String × String))
        (addr : duckv1.Addressable) (got : monitoringv1alpha1.AlertmanagerConfig) (n : Nat),
        equality.DeepDerivativeAlertmanagerConfig (desiredAlertmanagerConfig src labels addr)
          { got with ObjectMeta := { got.ObjectMeta with Generation := (n : Int) + 1 } } = false)
    ∧ (apiserver.reconciler.ReconcileKind (World.start alpha.SetDefaults apiserver.fresh)).1
        = Outcome.returned none
    ∧ (apiserver.reconciler.ReconcileKind
        (World.start alpha.SetDefaults apiserver.fresh)).2.calls.filter Call.isMutation
        = [Call.CreatePrometheusRule "ns"
            (desiredPrometheusRule alpha.SetDefaults (apiserver.defaultedLabels alpha)),
           Call.CreateAlertmanagerConfig "ns"
            (desiredAlertmanagerConfig alpha.SetDefaults
              (gomap.insert (apiserver.defaultedLabels alpha) SourceSelector "true")
              sinkAddress)]
    ∧ (apiserver.reconciler.ReconcileKind
        (World.start alpha.SetDefaults apiserver.fresh)).2.cluster.rules
        = [apiserver.setRuleMeta
            (desiredPrometheusRule alpha.SetDefaults (apiserver.defaultedLabels alpha))
            { (desiredPrometheusRule alpha.SetDefaults
                (apiserver.defaultedLabels alpha)).ObjectMeta with
              UID := "uid-1", ResourceVersion := "1", Generation := 1,
              CreationTimestamp := apiserver.fresh.now }]
    ∧ (apiserver.reconciler.ReconcileKind
        (World.start alpha.SetDefaults apiserver.fresh)).2.cluster.amcs
        = [apiserver.setAmcMeta
            (desiredAlertmanagerConfig alpha.SetDefaults
              (gomap.insert (apiserver.defaultedLabels alpha) SourceSelector "true")
              sinkAddress)
            { (desiredAlertmanagerConfig alpha.SetDefaults
                (gomap.insert (apiserver.defaultedLabels alpha) SourceSelector "true")
                sinkAddress).ObjectMeta with
              UID := "uid-2", ResourceVersion := "2", Generation := 1,
              CreationTimestamp := apiserver.fresh.now }]
    ∧ (apiserver.reconciler.ReconcileKind
        (World.start alpha.SetDefaults
          (apiserver.reconciler.ReconcileKind
            (World.start alpha.SetDefaults apiserver.fresh)).2.cluster)).1
        = Outcome.returned none
    ∧ (apiserver.reconciler.ReconcileKind
        (World.start alpha.SetDefaults
          (apiserver.reconciler.ReconcileKind
            (World.start alpha.SetDefaults apiserver.fresh)).2.cluster)).2.calls.filter
          Call.isMutation
        = [Call.UpdatePrometheusRule "ns"
            { desiredPrometheusRule alpha.SetDefaults (apiserver.defaultedLabels alpha) with
              ObjectMeta :=
                { (desiredPrometheusRule alpha.SetDefaults
                    (apiserver.defaultedLabels alpha)).ObjectMeta with
                  ResourceVersion := "1" } },
           Call.UpdateAlertmanagerConfig "ns"
            { desiredAlertmanagerConfig alpha.SetDefaults
                (gomap.insert (apiserver.defaultedLabels alpha) SourceSelector "true")
                sinkAddress with
              ObjectMeta :=
                { (desiredAlertmanagerConfig alpha.SetDefaults
                    (gomap.insert (apiserver.defaultedLabels alpha) SourceSelector "true")
                    sinkAddress).ObjectMeta with
                  ResourceVersion := "2" } }]
    ∧ (apiserver.reconciler.ReconcileKind
        (World.start alpha.SetDefaults
          (apiserver.reconciler.ReconcileKind
            (World.start alpha.SetDefaults apiserver.fresh)).2.cluster)).2.events
        = [{ Eventtype := "Normal", Reason := "Updated",
             Message := "Updated Prometheus rule ns/alphakne" },
           { Eventtype := "Normal", Reason := "Updated",
             Message := "Updated AlertManager config ns/alphakne" }]
    ∧ (apiserver.reconciler.ReconcileKind
        (World.start alpha.SetDefaults
          (apiserver.reconciler.ReconcileKind
            (World.start alpha.SetDefaults apiserver.fresh)).2.cluster)).2.cluster
        = (apiserver.reconciler.ReconcileKind
            (World.start alpha.SetDefaults apiserver.fresh)).2.cluster := by
  have hgen : ∀ n : Nat, decide ((0 : Int) = (n : Int) + 1) = false := by
    intro n
    simp only [decide_eq_false_iff_not]
    omega
  refine ⟨?_, ?_, by decide⟩
  · intro src labels got n
    simp [equality.DeepDerivativePrometheusRule, equality.derivObjectMeta,
      desiredPrometheusRule, hgen]
  · intro src labels addr got n
    simp [equality.DeepDerivativeAlertmanagerConfig, equality.derivObjectMeta,
      desiredAlertmanagerConfig, hgen]

/-! ### Labels, matchers, grouping key, events, validation -/

/-- C11 as the code has it (child labels emitted). For every source that has passed
`SetDefaults`, the metadata labels of the desired rule and of the desired routing config of
a pass carry the selector label with value `true` and the name label with the name of the
source; both children are in the namespace of the source; under the namespace label they
carry what the labels of the source carry, which `SetDefaults` does not set. -/
theorem C11_child_labels (src0 : PrometheusRuleSource) (addr : duckv1.Addressable) :
    (gomap.lookup ((desiredPrometheusRule src0.SetDefaults
          (apiserver.defaultedLabels src0)).ObjectMeta.Labels.getD []) SourceSelector
        = some "true"
      ∧ gomap.lookup ((desiredPrometheusRule src0.SetDefaults
          (apiserver.defaultedLabels src0)).ObjectMeta.Labels.getD []) SourceNameLabel
        = some src0.ObjectMeta.Name
      ∧ (desiredPrometheusRule src0.SetDefaults
          (apiserver.defaultedLabels src0)).ObjectMeta.Namespace = src0.ObjectMeta.Namespace
      ∧ gomap.lookup ((desiredPrometheusRule src0.SetDefaults
          (apiserver.defaultedLabels src0)).ObjectMeta.Labels.getD []) SourceNamespaceLabel
        = gomap.lookup (src0.ObjectMeta.Labels.getD []) SourceNamespaceLabel)
    ∧ (gomap.lookup ((desiredAlertmanagerConfig src0.SetDefaults
          (gomap.insert (apiserver.defaultedLabels src0) SourceSelector "true")
          addr).ObjectMeta.Labels.getD []) SourceSelector = some "true"
      ∧ gomap.lookup ((desiredAlertmanagerConfig src0.SetDefaults
          (gomap.insert (apiserver.defaultedLabels src0) SourceSelector "true")
          addr).ObjectMeta.Labels.getD []) SourceNameLabel = some src0.ObjectMeta.Name
      ∧ (desiredAlertmanagerConfig src0.SetDefaults
          (gomap.insert (apiserver.defaultedLabels src0) SourceSelector "true")
          addr).ObjectMeta.Namespace = src0.ObjectMeta.Namespace
      ∧ gomap.lookup ((desiredAlertmanagerConfig src0.SetDefaults
          (gomap.insert (apiserver.defaultedLabels src0) SourceSelector "true")
          addr).ObjectMeta.Labels.getD []) SourceNamespaceLabel
        = gomap.lookup (src0.ObjectMeta.Labels.getD []) SourceNamespaceLabel) := by
  have h1 : SourceNameLabel ≠ SourceSelector := by decide
  have h2 : SourceNamespaceLabel ≠ SourceSelector := by decide
  have h3 : SourceNamespaceLabel ≠ SourceNameLabel := by decide
  simp only [desiredPrometheusRule, desiredAlertmanagerConfig, Option.getD_some,
    apiserver.defaultedLabels, lookup_insert_same, lookup_insert_other _ _ _ _ h1,
    lookup_insert_other _ _ _ _ h2, lookup_insert_other _ _ _ _ h3]
  refine ⟨⟨?_, ?_, ?_, ?_⟩, ⟨?_, ?_, ?_, ?_⟩⟩ <;> trivial

/-- C11 as claimed fails: the defaulted source `alpha` of namespace `ns` has no namespace
label, and neither desired child carries one. -/
theorem C11_counterexample :
    alpha.SetDefaults.ObjectMeta.Namespace = "ns"
    ∧ gomap.lookup ((desiredPrometheusRule alpha.SetDefaults
        (apiserver.defaultedLabels alpha)).ObjectMeta.Labels.getD []) SourceNamespaceLabel = none
    ∧ gomap.lookup ((desiredAlertmanagerConfig alpha.SetDefaults
        (gomap.insert (apiserver.defaultedLabels alpha) SourceSelector "true")
        sinkAddress).ObjectMeta.Labels.getD []) SourceNamespaceLabel = none := by
  decide

/-- C12 (rule-entry label injection). After `SetDefaults` the groups of the rule
specification are the groups before, group by group and rule by rule in order, each rule
with the name label set to the name of the source and the namespace label set to its
namespace and every other label and field as before; the other fields of the specification
are as before; and the body of the desired rule child is that rule specification. -/
theorem C12_rule_label_injection (src0 : PrometheusRuleSource)
    (labels : List (String × String)) :
    List.Forall₂ (injectedGroup src0.ObjectMeta.Name src0.ObjectMeta.Namespace)
        src0.Spec.Rule.Rule.Groups src0.SetDefaults.Spec.Rule.Rule.Groups
    ∧ src0.SetDefaults.Spec.Rule.GroupWait = src0.Spec.Rule.GroupWait
    ∧ src0.SetDefaults.Spec.Rule.GroupInterval = src0.Spec.Rule.GroupInterval
    ∧ src0.SetDefaults.Spec.Rule.RepeatInterval = src0.Spec.Rule.RepeatInterval
    ∧ src0.SetDefaults.Spec.Rule.GroupBy = src0.Spec.Rule.GroupBy
    ∧ src0.SetDefaults.Spec.Rule.MuteTimeIntervals = src0.Spec.Rule.MuteTimeIntervals
    ∧ src0.SetDefaults.Spec.Rule.ActiveTimeIntervals = src0.Spec.Rule.ActiveTimeIntervals
    ∧ src0.SetDefaults.Spec.Event = src0.Spec.Event
    ∧ src0.SetDefaults.Spec.SourceSpec = src0.Spec.SourceSpec
    ∧ src0.SetDefaults.Spec.Reply = src0.Spec.Reply
    ∧ (desiredPrometheusRule src0.SetDefaults labels).Spec = src0.SetDefaults.Spec.Rule.Rule := by
  refine ⟨?_, rfl, rfl, rfl, rfl, rfl, rfl, rfl, rfl, rfl, rfl⟩
  have h3 : SourceNameLabel ≠ SourceNamespaceLabel := by decide
  simp only [PrometheusRuleSource.SetDefaults, PrometheusRuleSourceSpec.SetDefaults]
  rw [List.forall₂_map_right_iff, List.forall₂_same]
  intro g _
  refine ⟨rfl, rfl, rfl, rfl, ?_⟩
  simp only []
  rw [List.forall₂_map_right_iff, List.forall₂_same]
  intro r _
  refine ⟨rfl, rfl, rfl, rfl, rfl, _, rfl, ?_, lookup_insert_same _ _ _, ?_⟩
  · rw [lookup_insert_other _ _ _ _ h3]
    exact lookup_insert_same _ _ _
  · intro k hk1 hk2
    rw [lookup_insert_other _ _ _ _ hk2, lookup_insert_other _ _ _ _ hk1]

/-- The matchers of the routing config built for a source `a` hold of the labels injected
into the rule entries of a source `b` exactly when `b` has the name of `a` and the namespace
of `b` is the name of `a`: both matchers carry the name of `a` as their value. -/
theorem matchersHold_iff (a b : PrometheusRuleSource) (labels own : List (String × String))
    (addr : duckv1.Addressable) :
    matchersHold (desiredAlertmanagerConfig a labels addr) (injectedLabels b own) = true
      ↔ b.ObjectMeta.Name = a.ObjectMeta.Name ∧ b.ObjectMeta.Namespace = a.ObjectMeta.Name := by
  have h3 : SourceNameLabel ≠ SourceNamespaceLabel := by decide
  simp [matchersHold, desiredAlertmanagerConfig, matcherHolds, injectedLabels,
    lookup_insert_same, lookup_insert_other _ _ _ _ h3]

/-- C13 (the matcher pair tells sources apart by name and namespace): evaluated at the
source `alpha` of namespace `ns`. The rule entries of `alpha` carry the name label `alpha`
and the namespace label `ns`; the routing config built for `alpha` matches the namespace
label against `alpha`, the name of the source, so the labels of `alpha` itself do not
satisfy its matchers. -/
theorem C13_namespace_matcher_uses_name :
    (alpha.SetDefaults.Spec.Rule.Rule.Groups.map
        (fun g => g.Rules.map (fun r => r.Labels)))
      = [[some [(SourceNameLabel, "alpha"), (SourceNamespaceLabel, "ns")]]]
    ∧ injectedLabels alpha [] = [(SourceNameLabel, "alpha"), (SourceNamespaceLabel, "ns")]
    ∧ ((desiredAlertmanagerConfig alpha.SetDefaults
          (gomap.insert (apiserver.defaultedLabels alpha) SourceSelector "true")
          sinkAddress).Spec.Route.map (fun route => route.Matchers))
      = some [{ Name := SourceNameLabel, Value := "alpha",
                MatchType := monitoringv1alpha1.MatchEqual, Regex := false },
              { Name := SourceNamespaceLabel, Value := "alpha",
                MatchType := monitoringv1alpha1.MatchEqual, Regex := false }]
    ∧ matchersHold (desiredAlertmanagerConfig alpha.SetDefaults
          (gomap.insert (apiserver.defaultedLabels alpha) SourceSelector "true") sinkAddress)
        (injectedLabels alpha []) = false := by
  decide

/-- C14 as the code has it (routing grouping key). The grouping key of the route is the name
label, the namespace label and then the grouping labels of the source, in that order: its
members are exactly the two labels and the labels of the source, and it is free of repeats
exactly when the list of the source is free of repeats and holds neither of the two
labels. -/
theorem C14_group_by (src : PrometheusRuleSource) (labels : List (String × String))
    (addr : duckv1.Addressable) :
    routeGroupBy (desiredAlertmanagerConfig src labels addr)
        = SourceNameLabel :: SourceNamespaceLabel :: src.Spec.Rule.GroupBy
    ∧ (∀ l, l ∈ routeGroupBy (desiredAlertmanagerConfig src labels addr)
        ↔ l = SourceNameLabel ∨ l = SourceNamespaceLabel ∨ l ∈ src.Spec.Rule.GroupBy)
    ∧ ((routeGroupBy (desiredAlertmanagerConfig src labels addr)).Nodup
        ↔ src.Spec.Rule.GroupBy.Nodup ∧ SourceNameLabel ∉ src.Spec.Rule.GroupBy
          ∧ SourceNamespaceLabel ∉ src.Spec.Rule.GroupBy) := by
  have h3 : SourceNameLabel ≠ SourceNamespaceLabel := by decide
  have hg : routeGroupBy (desiredAlertmanagerConfig src labels addr)
      = SourceNameLabel :: SourceNamespaceLabel :: src.Spec.Rule.GroupBy := rfl
  refine ⟨hg, ?_, ?_⟩
  · intro l
    rw [hg]
    simp
  · rw [hg]
    simp only [List.nodup_cons, List.mem_cons, not_or]
    constructor
    · rintro ⟨⟨_, h1⟩, h2, h4⟩
      exact ⟨h4, h1, h2⟩
    · rintro ⟨h4, h1, h2⟩
      exact ⟨⟨h3, h1⟩, h2, h4⟩

/-- C14 as claimed fails: the source names the name label as its one grouping label, a list
without repeats, and the grouping key of the route holds the name label twice. -/
theorem C14_counterexample :
    alphaGroupedByName.Spec.Rule.GroupBy.Nodup
    ∧ routeGroupBy (desiredAlertmanagerConfig alphaGroupedByName [] sinkAddress)
        = [SourceNameLabel, SourceNamespaceLabel, SourceNameLabel]
    ∧ ¬ (routeGroupBy (desiredAlertmanagerConfig alphaGroupedByName [] sinkAddress)).Nodup := by
  decide

/-- C15 (one event per mutation, with reason Created, Updated or Deleted): evaluated at the
pass of `alpha` against a cluster holding two children of each kind, with every write
succeeding. The deletion of the surplus rule is recorded with reason `Deleted`; the deletion
of the surplus routing config is recorded with reason `Updated`. -/
theorem C15_routing_delete_event_says_updated :
    ((scripted happyScript).reconcilePrometheusRule (World.start alpha ())).2.calls.getLast?
        = some (Call.DeletePrometheusRule "ns" "r1" "u1")
    ∧ ((scripted happyScript).reconcilePrometheusRule (World.start alpha ())).2.events.getLast?
        = some { Eventtype := "Normal", Reason := "Deleted",
                 Message := "Deleted Prometheus rule ns/r1" }
    ∧ ((scripted happyScript).reconcileAlertManagerConfig
          (World.start alpha ())).2.calls.getLast?
        = some (Call.DeleteAlertmanagerConfig "ns" "a1" "v1")
    ∧ ((scripted happyScript).reconcileAlertManagerConfig (World.start alpha ())).2.events
        = [{ Eventtype := "Normal", Reason := "Updated",
             Message := "Updated AlertManager config ns/alphakne" },
           { Eventtype := "Normal", Reason := "Updated",
             Message := "Updated AlertManager config ns/a1" }] := by
  decide

/-- C16 (`PrometheusRuleEventSpec.Validate` is total): evaluated at an event specification
whose optional `Data` is omitted. Whatever the cloudevents validation answers and whatever
UUID is drawn, the method reads `s.Data.Raw` through the nil pointer and panics; it returns
no result. -/
theorem C16_validate_panics_without_data (validate : CloudEvent → Option String)
    (id : String) :
    eventWithoutData.Data = none
    ∧ PrometheusRuleEventSpec.Validate validate id eventWithoutData
        = ValidateResult.panicked
            "runtime error: invalid memory address or nil pointer dereference"
    ∧ ∀ errs, PrometheusRuleEventSpec.Validate validate id eventWithoutData
        ≠ ValidateResult.returned errs := by
  refine ⟨rfl, rfl, ?_⟩
  intro errs h
  cases h

end Theorems
